import Mathlib

/-!
# Verification of the Obsydian project object-graph builder

Shallow embedding of `create-obsydian-app`'s Xcode project generator and
the claims of its specification.

The embedded sources are:
* `src/project/xcode.ts` (namespace `ProjectXcode`): the framework-based
  generator `generateXcodeProject` together with its inner `generateUUID`
  allocator;
* `src/utils/xcodeProject.ts` (namespace `UtilsXcodeProject`): the
  `createMinimalProject` / `enhanceProject` pair, most importantly the
  build-phase relocation logic of `enhanceProject` and its `generateUUID`;
* `src/commands/init.ts` (namespace `InitCommand`): the scaffold pass that
  calls `ProjectXcode.generateXcodeProject`, modelled as a trace of file
  writes.

JS strings are modelled as Lean `String` (a wrapper around `List Char`),
JS objects as insertion-ordered association lists, and `Math.random()` as
an explicit stream `Nat → Nat` of draws `k` (value `k / 2^53`): every
double that `Math.random()` can return is a dyadic rational `k / 2^53`
with `0 ≤ k < 2^53`, and `(k / 2^53).toString(16)` renders its exact,
finite hexadecimal expansion with trailing zeros stripped (e.g.
`(0.5).toString(16) = "0.8"`).
-/

/-! ## Hexadecimal rendering of `Math.random()` draws -/

/-- The lowercase hexadecimal digit for `n % 16`, as produced by JS
`Number.prototype.toString(16)`. -/
def hexChar (n : Nat) : Char :=
  if n < 10 then Char.ofNat (48 + n) else Char.ofNat (87 + n)

/-- Little-endian hexadecimal digits, with explicit fuel so that the
definition is structurally recursive (and hence kernel-reducible);
`fuel ≥ n` always suffices since `n / 16 < n` for `n > 0`. -/
def hexDigitsAux : Nat → Nat → List Char
  | _, 0 => []
  | 0, _ + 1 => []
  | fuel + 1, n + 1 => hexChar ((n + 1) % 16) :: hexDigitsAux fuel ((n + 1) / 16)

/-- Little-endian hexadecimal digits of a natural number (empty for 0). -/
def hexDigitsLE (n : Nat) : List Char :=
  hexDigitsAux n n

/-- Big-endian hexadecimal digit list of a natural number, `['0']` for 0. -/
def hexDigits (n : Nat) : List Char :=
  if n = 0 then ['0'] else (hexDigitsLE n).reverse

/-- Left-pad a digit list with `'0'` to length `w`. -/
def padLeftZeros (w : Nat) (l : List Char) : List Char :=
  List.replicate (w - l.length) '0' ++ l

/-- Strip trailing `'0'` characters. -/
def stripTrailingZeros (l : List Char) : List Char :=
  (l.reverse.dropWhile (· = '0')).reverse

/-- The fractional hex digits of `k / 2^53` (trailing zeros stripped):
`k / 2^53 = 8k / 16^14`, so these are the 14 hex digits of `8k`,
left-padded, with trailing zeros removed. -/
def jsRandFracDigits (k : Nat) : List Char :=
  stripTrailingZeros (padLeftZeros 14 (hexDigits (8 * k)))

/-- The characters of `Math.random().toString(16)` for the draw `k`
(value `k / 2^53`): `"0"` for `k = 0`, otherwise `"0." ++ digits`. -/
def jsRandStringChars (k : Nat) : List Char :=
  if k = 0 then ['0'] else '0' :: '.' :: jsRandFracDigits k

/-- `Math.random().toString(16).substring(2, 10)`: characters 2..9 of the
rendered string, i.e. the first eight fractional hex digits. -/
def jsRandChunk (k : Nat) : List Char :=
  ((jsRandStringChars k).drop 2).take 8

namespace ProjectXcode

/-- `src/project/xcode.ts` line 64: one allocation of the inner
`generateUUID` closure.  Allocation `i` consumes draws `2*i` and
`2*i + 1` of the `Math.random()` stream `g`:
`(r₁.toString(16).substring(2,10) + r₂.toString(16).substring(2,10)).toUpperCase().slice(0, 24)`. -/
def generateUUID (g : Nat → Nat) (i : Nat) : String :=
  ⟨((jsRandChunk (g (2 * i)) ++ jsRandChunk (g (2 * i + 1))).map Char.toUpper).take 24⟩

end ProjectXcode

namespace UtilsXcodeProject

/-- `src/utils/xcodeProject.ts` line 114: identical to
`ProjectXcode.generateUUID` except for the absent `.slice(0, 24)`. -/
def generateUUID (g : Nat → Nat) (i : Nat) : String :=
  ⟨(jsRandChunk (g (2 * i)) ++ jsRandChunk (g (2 * i + 1))).map Char.toUpper⟩

end UtilsXcodeProject

section AllocatorChecks

-- `(0.5).toString(16) = "0.8"`: draw k = 2^52.
example : jsRandStringChars (2 ^ 52) = ['0', '.', '8'] := by decide
-- a full-precision draw yields an eight-character chunk
example : (jsRandChunk (2 ^ 52 + 1)).length = 8 := by decide
example : ProjectXcode.generateUUID (fun _ => 2 ^ 52) 0 = "88" := by decide

end AllocatorChecks

/-! ## JS values and insertion-ordered objects

The source represents every graph node as an untyped JS object.  We model
a JS value as `PValue` and a JS object as an insertion-ordered association
list `PObj` (JS objects preserve insertion order for the string keys used
here). -/

inductive PValue where
  | s (v : String)
  | n (v : Int)
  | arr (vs : List PValue)
  | obj (fields : List (String × PValue))

abbrev PObj := List (String × PValue)

/-- Property read `o[k]`: the value of the first entry with key `k`. -/
def lookupKey : PObj → String → Option PValue
  | [], _ => none
  | (k', v) :: rest, k => if k' = k then some v else lookupKey rest k

/-- JS object-literal semantics of `{...a, ...b}`: keys of `a` keep their
position (with `b`'s value if `b` also has the key), keys only in `b` are
appended in `b`'s order. -/
def jsSpread (a b : PObj) : PObj :=
  (a.map fun kv => (kv.1, (lookupKey b kv.1).getD kv.2)) ++
    b.filter fun kv => (lookupKey a kv.1).isNone

theorem lookupKey_append (a b : PObj) (k : String) :
    lookupKey (a ++ b) k = ((lookupKey a k).rec (lookupKey b k) fun v => some v) := by
  induction a with
  | nil => rfl
  | cons hd tl ih =>
    by_cases h : hd.1 = k <;> simp [lookupKey, h, ih]

theorem lookupKey_map_override (a b : PObj) (k : String) :
    lookupKey (a.map fun kv => (kv.1, (lookupKey b kv.1).getD kv.2)) k =
      (lookupKey a k).map fun v => (lookupKey b k).getD v := by
  induction a with
  | nil => rfl
  | cons hd tl ih =>
    by_cases h : hd.1 = k
    · subst h; simp [lookupKey]
    · simp [lookupKey, h, ih]

theorem lookupKey_filter_spread (a b : PObj) (k : String)
    (hk : lookupKey a k = none) :
    lookupKey (b.filter fun kv => (lookupKey a kv.1).isNone) k = lookupKey b k := by
  induction b with
  | nil => rfl
  | cons hd tl ih =>
    by_cases h : hd.1 = k
    · subst h; simp [List.filter, hk, lookupKey]
    · by_cases hp : (lookupKey a hd.1).isNone <;>
        simp [List.filter, hp, lookupKey, h, ih]

/-- Reads on a spread object: a key present in the overlay reads the
overlay's value, any other key reads the base's value. -/
theorem lookupKey_jsSpread (a b : PObj) (k : String) :
    lookupKey (jsSpread a b) k =
      ((lookupKey b k).rec (lookupKey a k) fun v => some v) := by
  unfold jsSpread
  rw [lookupKey_append, lookupKey_map_override]
  cases hA : lookupKey a k with
  | some v => cases hB : lookupKey b k <;> simp [hA]
  | none =>
    simp only [Option.map_none']
    rw [lookupKey_filter_spread a b k hA]
    cases hB : lookupKey b k <;> simp

theorem lookupKey_jsSpread_of_none {b : PObj} {k : String}
    (a : PObj) (h : lookupKey b k = none) :
    lookupKey (jsSpread a b) k = lookupKey a k := by
  rw [lookupKey_jsSpread, h]

theorem lookupKey_jsSpread_of_some {b : PObj} {k : String} {v : PValue}
    (a : PObj) (h : lookupKey b k = some v) :
    lookupKey (jsSpread a b) k = some v := by
  rw [lookupKey_jsSpread, h]

/-! ## Model of Node's `path` module

External collaborator (not repository code).  The generator only feeds
the results of these pure functions into string-valued fields; no claim
below depends on their exact output, only on their purity. -/

/-- Characters of the last `/`-separated segment. -/
def baseNameChars (l : List Char) : List Char :=
  (l.reverse.takeWhile (· ≠ '/')).reverse

/-- Model of `path.extname`: the suffix of the basename from its last
dot (inclusive), `""` when the basename has no dot or only a leading one. -/
def pathExtname (p : String) : String :=
  let b := baseNameChars p.data
  let afterDot := b.reverse.takeWhile (· ≠ '.')
  if afterDot.length + 1 < b.length ∧ afterDot.length < b.length then
    ⟨'.' :: afterDot.reverse⟩
  else ""

/-- Model of `path.join` for two segments. -/
def pathJoin (a b : String) : String := a ++ "/" ++ b

/-- Model of `path.dirname`: everything before the last `/`, `"."` when
there is no separator. -/
def pathDirname (p : String) : String :=
  let b := baseNameChars p.data
  if b.length < p.data.length then ⟨p.data.take (p.data.length - b.length - 1)⟩
  else "."

/-- Model of `path.relative from to`: strips `from ++ "/"` when `to`
starts with it, otherwise returns `to` unchanged. -/
def pathRelative (base p : String) : String :=
  if (base.data ++ ['/']).isPrefixOf p.data then ⟨p.data.drop (base.data.length + 1)⟩
  else p

/-- Model of `path.basename p ext`: the basename with a trailing `ext`
removed. -/
def pathBasenameDrop (p ext : String) : String :=
  let b := baseNameChars p.data
  if ext.data.isSuffixOf b then ⟨b.take (b.length - ext.data.length)⟩ else ⟨b⟩

/-- Model of JS `String.prototype.toLowerCase` (ASCII). -/
def jsToLower (s : String) : String := ⟨s.data.map Char.toLower⟩

/-! ## `src/project/config.ts` -/

/-- `export type Platform = 'macos' | 'ios' | 'android' | 'windows' | 'linux'`
(`src/project/config.ts`). -/
inductive Platform where
  | macos | ios | android | windows | linux
deriving DecidableEq, Repr

namespace ProjectXcode

/-! ## `src/project/xcode.ts` (the framework-based generator) -/

/-- `XcodeProjectOptions` of `src/project/xcode.ts`. -/
structure XcodeProjectOptions where
  projectDir : String
  projectName : String
  bundleId : String
  platforms : List Platform
  sourceFiles : List String
  infoPlistPath : String
  entitlementsPath : Option String := none
  minimumOsVersion : Option String := none
  teamId : Option String := none
  frameworkPath : Option String := none

/-- Destructuring default `minimumOsVersion = '14.0'`. -/
def XcodeProjectOptions.minOs (o : XcodeProjectOptions) : String :=
  o.minimumOsVersion.getD "14.0"

/-- Destructuring default `teamId = ''`. -/
def XcodeProjectOptions.team (o : XcodeProjectOptions) : String :=
  o.teamId.getD ""

/-- `const primaryPlatform = options.platforms.includes('ios') ? 'ios' : 'macos'`;
`isIOS` is `primaryPlatform === 'ios'`. -/
def XcodeProjectOptions.isIOS (o : XcodeProjectOptions) : Bool :=
  o.platforms.contains .ios

/-- `getFileType` (`src/project/xcode.ts` lines 31–43). -/
def getFileType (filename : String) : String :=
  let ext := jsToLower (pathExtname filename)
  if ext = ".m" then "sourcecode.c.objc"
  else if ext = ".mm" then "sourcecode.cpp.objcpp"
  else if ext = ".c" then "sourcecode.c.c"
  else if ext = ".cpp" ∨ ext = ".cc" then "sourcecode.cpp.cpp"
  else if ext = ".swift" then "sourcecode.swift"
  else if ext = ".h" then "sourcecode.c.h"
  else if ext = ".hpp" then "sourcecode.cpp.h"
  else "text"

/-! ### Build settings composition (`src/project/xcode.ts` lines 230–434)

`fp` is the framework path, known to be present at this point in the
source (line 99 threw otherwise). -/

/-- `path.relative(projectDir, options.frameworkPath)` (line 109). -/
def frameworkRelativePath (o : XcodeProjectOptions) (fp : String) : String :=
  pathRelative o.projectDir fp

/-- `path.relative(projectDir, path.dirname(options.frameworkPath))`
(lines 283–284). -/
def frameworkRelativeDir (o : XcodeProjectOptions) (fp : String) : String :=
  pathRelative o.projectDir (pathDirname fp)

/-- `path.basename(options.frameworkPath, '.xcframework')` (line 294). -/
def frameworkName (fp : String) : String :=
  pathBasenameDrop fp ".xcframework"

/-- line 297: the macOS headers path inside the xcframework. -/
def macosHeadersPath (o : XcodeProjectOptions) (fp : String) : String :=
  pathJoin (pathJoin (pathJoin (pathJoin (frameworkRelativeDir o fp)
    (frameworkName fp ++ ".xcframework")) "macos-arm64")
    (frameworkName fp ++ ".framework")) "Headers"

/-- line 306: the iOS headers path inside the xcframework. -/
def iosHeadersPath (o : XcodeProjectOptions) (fp : String) : String :=
  pathJoin (pathJoin (pathJoin (pathJoin (frameworkRelativeDir o fp)
    (frameworkName fp ++ ".xcframework")) "ios-arm64")
    (frameworkName fp ++ ".framework")) "Headers"

/-- `baseBuildSettings` after all in-place additions (lines 230–325):
the core entries, then the platform branch, the framework entries, the
iOS embed flag and the optional entitlements entry, in source order
(every addition is a fresh key, so in-place mutation is appending). -/
def baseBuildSettings (o : XcodeProjectOptions) (fp : String) : PObj :=
  [("ASSETCATALOG_COMPILER_APPICON_NAME", .s "AppIcon"),
   ("ASSETCATALOG_COMPILER_GLOBAL_ACCENT_COLOR_NAME", .s ""),
   ("CLANG_CXX_LANGUAGE_STANDARD", .s "gnu++20"),
   ("CLANG_ENABLE_MODULES", .s "YES"),
   ("CLANG_ENABLE_OBJC_ARC", .s "YES"),
   ("CLANG_ENABLE_OBJC_WEAK", .s "YES"),
   ("CODE_SIGN_STYLE", .s "Automatic"),
   ("CURRENT_PROJECT_VERSION", .s "1"),
   ("DEVELOPMENT_TEAM", .s o.team),
   ("GENERATE_INFOPLIST_FILE", .s "NO"),
   ("INFOPLIST_FILE", .s o.infoPlistPath),
   ("MARKETING_VERSION", .s "1.0"),
   ("PRODUCT_BUNDLE_IDENTIFIER", .s o.bundleId),
   ("PRODUCT_NAME", .s "$(TARGET_NAME)"),
   ("SWIFT_EMIT_LOC_STRINGS", .s "YES")] ++
  (if o.isIOS then
    [("INFOPLIST_KEY_UIApplicationSupportsIndirectInputEvents", .s "YES"),
     ("INFOPLIST_KEY_UILaunchStoryboardName", .s "LaunchScreen"),
     ("INFOPLIST_KEY_UISupportedInterfaceOrientations", .arr
       [.s "UIInterfaceOrientationPortrait",
        .s "UIInterfaceOrientationLandscapeLeft",
        .s "UIInterfaceOrientationLandscapeRight"]),
     ("INFOPLIST_KEY_UISupportedInterfaceOrientations_iPad", .arr
       [.s "UIInterfaceOrientationPortrait",
        .s "UIInterfaceOrientationPortraitUpsideDown",
        .s "UIInterfaceOrientationLandscapeLeft",
        .s "UIInterfaceOrientationLandscapeRight"]),
     ("IPHONEOS_DEPLOYMENT_TARGET", .s o.minOs),
     ("LD_RUNPATH_SEARCH_PATHS", .s "$(inherited) @executable_path/Frameworks"),
     ("SDKROOT", .s "iphoneos"),
     ("TARGETED_DEVICE_FAMILY", .s "1,2")]
  else
    [("COMBINE_HIDPI_IMAGES", .s "YES"),
     ("INFOPLIST_KEY_NSMainNibFile", .s ""),
     ("INFOPLIST_KEY_NSPrincipalClass", .s "NSApplication"),
     ("LD_RUNPATH_SEARCH_PATHS", .s "$(inherited) @executable_path/../Frameworks"),
     ("MACOSX_DEPLOYMENT_TARGET", .s o.minOs),
     ("SDKROOT", .s "macosx"),
     ("ONLY_ACTIVE_ARCH", .s "YES")]) ++
  [("FRAMEWORK_SEARCH_PATHS", .arr
     [.s "$(inherited)", .s ("\"" ++ frameworkRelativeDir o fp ++ "\"")]),
   ("HEADER_SEARCH_PATHS", .arr
     ([.s "$(inherited)", .s ("\"" ++ macosHeadersPath o fp ++ "\"")] ++
      if o.platforms.contains .ios then [.s ("\"" ++ iosHeadersPath o fp ++ "\"")]
      else [])),
   ("OTHER_LDFLAGS", .arr [.s "$(inherited)", .s "-framework", .s "Obsydian"])] ++
  (if o.isIOS then [("ALWAYS_EMBED_SWIFT_STANDARD_LIBRARIES", .s "NO")] else []) ++
  (match o.entitlementsPath with
   | some e => [("CODE_SIGN_ENTITLEMENTS", .s e)]
   | none => [])

/-- The Debug-specific entries of `debugConfig` (lines 332–338). -/
def debugOverlay : PObj :=
  [("DEBUG_INFORMATION_FORMAT", .s "dwarf"),
   ("GCC_DYNAMIC_NO_PIC", .s "NO"),
   ("GCC_OPTIMIZATION_LEVEL", .s "0"),
   ("GCC_PREPROCESSOR_DEFINITIONS", .arr [.s "DEBUG=1", .s "$(inherited)"]),
   ("MTL_ENABLE_DEBUG_INFO", .s "INCLUDE_SOURCE"),
   ("MTL_FAST_MATH", .s "YES")]

/-- The Release-specific entries of `releaseConfig` (lines 346–354),
including the conditional `ONLY_ACTIVE_ARCH` spread for macOS. -/
def releaseOverlay (o : XcodeProjectOptions) : PObj :=
  [("COPY_PHASE_STRIP", .s "NO"),
   ("DEBUG_INFORMATION_FORMAT", .s "dwarf-with-dsym"),
   ("ENABLE_NS_ASSERTIONS", .s "NO"),
   ("MTL_ENABLE_DEBUG_INFO", .s "NO"),
   ("MTL_FAST_MATH", .s "YES")] ++
  (if o.isIOS then [] else [("ONLY_ACTIVE_ARCH", .s "YES")])

/-- `debugConfig.buildSettings = {...baseBuildSettings, <debug overlay>}`. -/
def debugBuildSettings (o : XcodeProjectOptions) (fp : String) : PObj :=
  jsSpread (baseBuildSettings o fp) debugOverlay

/-- `releaseConfig.buildSettings = {...baseBuildSettings, <release overlay>}`. -/
def releaseBuildSettings (o : XcodeProjectOptions) (fp : String) : PObj :=
  jsSpread (baseBuildSettings o fp) (releaseOverlay o)

/-- `debugConfig` node (lines 328–340). -/
def debugConfigNode (o : XcodeProjectOptions) (fp : String) : PObj :=
  [("isa", .s "XCBuildConfiguration"), ("name", .s "Debug"),
   ("buildSettings", .obj (debugBuildSettings o fp))]

/-- `releaseConfig` node (lines 342–355). -/
def releaseConfigNode (o : XcodeProjectOptions) (fp : String) : PObj :=
  [("isa", .s "XCBuildConfiguration"), ("name", .s "Release"),
   ("buildSettings", .obj (releaseBuildSettings o fp))]

/-- `projectBuildSettings` (lines 358–409), with the platform branch. -/
def projectBuildSettings (o : XcodeProjectOptions) : PObj :=
  [("ALWAYS_SEARCH_USER_PATHS", .s "NO"),
   ("CLANG_ANALYZER_NONNULL", .s "YES"),
   ("CLANG_ANALYZER_NUMBER_OBJECT_CONVERSION", .s "YES_AGGRESSIVE"),
   ("CLANG_CXX_LANGUAGE_STANDARD", .s "gnu++20"),
   ("CLANG_ENABLE_MODULES", .s "YES"),
   ("CLANG_ENABLE_OBJC_ARC", .s "YES"),
   ("CLANG_ENABLE_OBJC_WEAK", .s "YES"),
   ("CLANG_WARN_BLOCK_CAPTURE_AUTORELEASING", .s "YES"),
   ("CLANG_WARN_BOOL_CONVERSION", .s "YES"),
   ("CLANG_WARN_COMMA", .s "YES"),
   ("CLANG_WARN_CONSTANT_CONVERSION", .s "YES"),
   ("CLANG_WARN_DEPRECATED_OBJC_IMPLEMENTATIONS", .s "YES"),
   ("CLANG_WARN_DIRECT_OBJC_ISA_USAGE", .s "YES_ERROR"),
   ("CLANG_WARN_DOCUMENTATION_COMMENTS", .s "YES"),
   ("CLANG_WARN_EMPTY_BODY", .s "YES"),
   ("CLANG_WARN_ENUM_CONVERSION", .s "YES"),
   ("CLANG_WARN_INFINITE_RECURSION", .s "YES"),
   ("CLANG_WARN_INT_CONVERSION", .s "YES"),
   ("CLANG_WARN_NON_LITERAL_NULL_CONVERSION", .s "YES"),
   ("CLANG_WARN_OBJC_IMPLICIT_RETAIN_SELF", .s "YES"),
   ("CLANG_WARN_OBJC_LITERAL_CONVERSION", .s "YES"),
   ("CLANG_WARN_OBJC_ROOT_CLASS", .s "YES_ERROR"),
   ("CLANG_WARN_QUOTED_INCLUDE_IN_FRAMEWORK_HEADER", .s "YES"),
   ("CLANG_WARN_RANGE_LOOP_ANALYSIS", .s "YES"),
   ("CLANG_WARN_STRICT_PROTOTYPES", .s "YES"),
   ("CLANG_WARN_SUSPICIOUS_MOVE", .s "YES"),
   ("CLANG_WARN_UNGUARDED_AVAILABILITY", .s "YES_AGGRESSIVE"),
   ("CLANG_WARN_UNREACHABLE_CODE", .s "YES"),
   ("CLANG_WARN__DUPLICATE_METHOD_MATCH", .s "YES"),
   ("COPY_PHASE_STRIP", .s "NO"),
   ("ENABLE_STRICT_OBJC_MSGSEND", .s "YES"),
   ("GCC_C_LANGUAGE_STANDARD", .s "gnu17"),
   ("GCC_NO_COMMON_BLOCKS", .s "YES"),
   ("GCC_WARN_64_TO_32_BIT_CONVERSION", .s "YES"),
   ("GCC_WARN_ABOUT_RETURN_TYPE", .s "YES_ERROR"),
   ("GCC_WARN_UNDECLARED_SELECTOR", .s "YES"),
   ("GCC_WARN_UNINITIALIZED_AUTOS", .s "YES_AGGRESSIVE"),
   ("GCC_WARN_UNUSED_FUNCTION", .s "YES"),
   ("GCC_WARN_UNUSED_VARIABLE", .s "YES"),
   ("MTL_ENABLE_DEBUG_INFO", .s "INCLUDE_SOURCE"),
   ("MTL_FAST_MATH", .s "YES")] ++
  (if o.platforms.contains .ios then
    [("IPHONEOS_DEPLOYMENT_TARGET", .s o.minOs), ("SDKROOT", .s "iphoneos")]
  else
    [("MACOSX_DEPLOYMENT_TARGET", .s o.minOs), ("SDKROOT", .s "macosx")])

/-- `projectDebugConfig` node (lines 411–423). -/
def projectDebugConfigNode (o : XcodeProjectOptions) : PObj :=
  [("isa", .s "XCBuildConfiguration"), ("name", .s "Debug"),
   ("buildSettings", .obj (jsSpread (projectBuildSettings o)
     [("DEBUG_INFORMATION_FORMAT", .s "dwarf"),
      ("ENABLE_TESTABILITY", .s "YES"),
      ("GCC_DYNAMIC_NO_PIC", .s "NO"),
      ("GCC_OPTIMIZATION_LEVEL", .s "0"),
      ("GCC_PREPROCESSOR_DEFINITIONS", .arr [.s "DEBUG=1", .s "$(inherited)"]),
      ("ONLY_ACTIVE_ARCH", .s "YES")]))]

/-- `projectReleaseConfig` node (lines 425–434). -/
def projectReleaseConfigNode (o : XcodeProjectOptions) : PObj :=
  [("isa", .s "XCBuildConfiguration"), ("name", .s "Release"),
   ("buildSettings", .obj (jsSpread (projectBuildSettings o)
     [("DEBUG_INFORMATION_FORMAT", .s "dwarf-with-dsym"),
      ("ENABLE_NS_ASSERTIONS", .s "NO"),
      ("VALIDATE_PRODUCT", .s "YES")]))]

end ProjectXcode

/-! ## The generator proper (`src/project/xcode.ts` lines 48–602)

The generator is a pure function of the options and of the
`Math.random()` stream.  `u` abbreviates `generateUUID g`; allocation
indices follow the source's sequential allocation order exactly. -/

/-- Errors raised by the embedded code.  `configurationError` models the
`throw new Error(...)` of `src/project/xcode.ts` lines 99–101 (the spec's
`ConfigurationError`). -/
inductive GenError where
  | configurationError (msg : String)
deriving DecidableEq, Repr

/-- The serialized top-level document (`projectJson`, lines 581–587).
`classes` is always the empty object. -/
structure ProjectDoc where
  archiveVersion : Nat
  classes : PObj
  objectVersion : Nat
  objects : List (String × PObj)
  rootObject : String

namespace ProjectXcode

/-! Allocation indices, in the source's allocation order:
0 rootObject, 1 mainGroup, 2 productsGroup, 3 frameworksGroup, 4 target,
5 targetConfigList, 6 projectConfigList, 7 debugConfig, 8 releaseConfig,
9 projectDebugConfig, 10 projectReleaseConfig, 11 sourcesPhase,
12 frameworksPhase, 13 resourcesPhase, 14 productRef,
15 assetsCatalogBuild (lines 71–86); 16 cocoaFrameworkRef,
17 cocoaFrameworkBuild (lines 95–96); 18 obsydianFrameworkRef,
19 obsydianFrameworkBuild (lines 104–105); on iOS 20 embedFrameworksPhase,
21 embedFrameworksBuildFile (lines 135–136); then per source file a
fileRef/buildFile pair (lines 148–149); then infoPlistRef (line 168),
the optional entitlementsRef (line 180) and assetsCatalog (line 191). -/

/-- First allocation index of the source-file loop. -/
def srcBase (o : XcodeProjectOptions) : Nat := if o.isIOS then 22 else 20

/-- Allocation index of the `i`-th source file's `PBXFileReference`. -/
def srcRefIdx (o : XcodeProjectOptions) (i : Nat) : Nat := srcBase o + 2 * i

/-- Allocation index of the `i`-th source file's `PBXBuildFile`. -/
def srcBuildIdx (o : XcodeProjectOptions) (i : Nat) : Nat := srcBase o + 2 * i + 1

/-- Allocation index of `infoPlistRefUUID`. -/
def infoPlistIdx (o : XcodeProjectOptions) : Nat :=
  srcBase o + 2 * o.sourceFiles.length

/-- Allocation index of `entitlementsRefUUID` (allocated only when an
entitlements path is given). -/
def entIdx (o : XcodeProjectOptions) : Nat := infoPlistIdx o + 1

/-- Allocation index of `assetsCatalogUUID`. -/
def assetsIdx (o : XcodeProjectOptions) : Nat :=
  infoPlistIdx o + (if o.entitlementsPath.isSome then 1 else 0) + 1

/-- Total number of `generateUUID` calls of one successful run. -/
def allocCount (o : XcodeProjectOptions) : Nat := assetsIdx o + 1

/-! Node builders, one per object literal of the source. -/

/-- lines 111–116. -/
def obsydianFrameworkRefNode (o : XcodeProjectOptions) (fp : String) : PObj :=
  [("isa", .s "PBXFileReference"),
   ("lastKnownFileType", .s "wrapper.xcframework"),
   ("path", .s (frameworkRelativePath o fp)),
   ("sourceTree", .s "<group>")]

/-- lines 118–124 (also the embed build file of lines 138–144, which has
the same shape). -/
def obsydianFrameworkBuildNode (refId : String) : PObj :=
  [("isa", .s "PBXBuildFile"), ("fileRef", .s refId),
   ("settings", .obj [("ATTRIBUTES", .arr
     [.s "CodeSignOnCopy", .s "RemoveHeadersOnCopy"])])]

/-- lines 151–156. -/
def srcFileRefNode (f : String) : PObj :=
  [("isa", .s "PBXFileReference"),
   ("lastKnownFileType", .s (getFileType f)),
   ("path", .s f),
   ("sourceTree", .s "<group>")]

/-- lines 158–161. -/
def srcBuildFileNode (refId : String) : PObj :=
  [("isa", .s "PBXBuildFile"), ("fileRef", .s refId)]

/-- lines 169–174. -/
def infoPlistRefNode (o : XcodeProjectOptions) : PObj :=
  [("isa", .s "PBXFileReference"),
   ("lastKnownFileType", .s "text.plist.xml"),
   ("path", .s o.infoPlistPath),
   ("sourceTree", .s "<group>")]

/-- lines 181–186. -/
def entitlementsRefNode (e : String) : PObj :=
  [("isa", .s "PBXFileReference"),
   ("lastKnownFileType", .s "text.plist.entitlements"),
   ("path", .s e),
   ("sourceTree", .s "<group>")]

/-- lines 192–197. -/
def assetsCatalogRefNode : PObj :=
  [("isa", .s "PBXFileReference"),
   ("lastKnownFileType", .s "folder.assetcatalog"),
   ("path", .s "Assets.xcassets"),
   ("sourceTree", .s "<group>")]

/-- lines 201–207. -/
def cocoaFrameworkRefNode : PObj :=
  [("isa", .s "PBXFileReference"),
   ("lastKnownFileType", .s "wrapper.framework"),
   ("name", .s "Cocoa.framework"),
   ("path", .s "System/Library/Frameworks/Cocoa.framework"),
   ("sourceTree", .s "SDKROOT")]

/-- lines 209–212 (also the assets catalog build file of lines 215–218). -/
def plainBuildFileNode (refId : String) : PObj :=
  [("isa", .s "PBXBuildFile"), ("fileRef", .s refId)]

/-- lines 221–227. -/
def productRefNode (o : XcodeProjectOptions) : PObj :=
  [("isa", .s "PBXFileReference"),
   ("explicitFileType", .s "wrapper.application"),
   ("includeInIndex", .n 0),
   ("path", .s (o.projectName ++ ".app")),
   ("sourceTree", .s "BUILT_PRODUCTS_DIR")]

/-- lines 437–442. -/
def sourcesPhaseNode (fileIds : List String) : PObj :=
  [("isa", .s "PBXSourcesBuildPhase"),
   ("buildActionMask", .n 2147483647),
   ("files", .arr (fileIds.map .s)),
   ("runOnlyForDeploymentPostprocessing", .n 0)]

/-- lines 444–449. -/
def frameworksPhaseNode (fileIds : List String) : PObj :=
  [("isa", .s "PBXFrameworksBuildPhase"),
   ("buildActionMask", .n 2147483647),
   ("files", .arr (fileIds.map .s)),
   ("runOnlyForDeploymentPostprocessing", .n 0)]

/-- lines 451–456. -/
def resourcesPhaseNode (fileIds : List String) : PObj :=
  [("isa", .s "PBXResourcesBuildPhase"),
   ("buildActionMask", .n 2147483647),
   ("files", .arr (fileIds.map .s)),
   ("runOnlyForDeploymentPostprocessing", .n 0)]

/-- lines 461–469: the iOS Embed Frameworks copy-files phase. -/
def embedFrameworksPhaseNode (buildFileId : String) : PObj :=
  [("isa", .s "PBXCopyFilesBuildPhase"),
   ("buildActionMask", .n 2147483647),
   ("dstPath", .s ""),
   ("dstSubfolderSpec", .n 10),
   ("files", .arr [.s buildFileId]),
   ("name", .s "Embed Frameworks"),
   ("runOnlyForDeploymentPostprocessing", .n 0)]

/-- lines 473–478 and 480–485. -/
def configListNode (configIds : List String) : PObj :=
  [("isa", .s "XCConfigurationList"),
   ("buildConfigurations", .arr (configIds.map .s)),
   ("defaultConfigurationIsVisible", .n 0),
   ("defaultConfigurationName", .s "Release")]

/-- `buildPhases` of the native target (lines 488–491): sources,
frameworks, resources, plus the embed phase on iOS. -/
def buildPhaseIds (o : XcodeProjectOptions) (u : Nat → String) : List String :=
  [u 11, u 12, u 13] ++ if o.isIOS then [u 20] else []

/-- lines 493–503. -/
def nativeTargetNode (o : XcodeProjectOptions) (u : Nat → String) : PObj :=
  [("isa", .s "PBXNativeTarget"),
   ("buildConfigurationList", .s (u 5)),
   ("buildPhases", .arr ((buildPhaseIds o u).map .s)),
   ("buildRules", .arr []),
   ("dependencies", .arr []),
   ("name", .s o.projectName),
   ("productName", .s o.projectName),
   ("productReference", .s (u 14)),
   ("productType", .s "com.apple.product-type.application")]

/-- `mainGroupChildren` accumulated by lines 164, 175, 187, 198. -/
def mainGroupChildren (o : XcodeProjectOptions) (u : Nat → String) : List String :=
  (o.sourceFiles.enum.map fun p => u (srcRefIdx o p.1)) ++
  [u (infoPlistIdx o)] ++
  (if o.entitlementsPath.isSome then [u (entIdx o)] else []) ++
  [u (assetsIdx o)]

/-- lines 506–510. -/
def mainGroupNode (o : XcodeProjectOptions) (u : Nat → String) : PObj :=
  [("isa", .s "PBXGroup"),
   ("children", .arr ((mainGroupChildren o u ++ [u 3, u 2]).map .s)),
   ("sourceTree", .s "<group>")]

/-- lines 512–517. -/
def productsGroupNode (u : Nat → String) : PObj :=
  [("isa", .s "PBXGroup"),
   ("children", .arr [.s (u 14)]),
   ("name", .s "Products"),
   ("sourceTree", .s "<group>")]

/-- lines 520–527. -/
def frameworksGroupNode (u : Nat → String) : PObj :=
  [("isa", .s "PBXGroup"),
   ("children", .arr [.s (u 16), .s (u 18)]),
   ("name", .s "Frameworks"),
   ("sourceTree", .s "<group>")]

/-- lines 530–551. -/
def rootProjectNode (u : Nat → String) : PObj :=
  [("isa", .s "PBXProject"),
   ("attributes", .obj
     [("BuildIndependentTargetsInParallel", .n 1),
      ("LastUpgradeCheck", .s "1500"),
      ("TargetAttributes", .obj
        [(u 4, .obj [("CreatedOnToolsVersion", .s "15.0")])])]),
   ("buildConfigurationList", .s (u 6)),
   ("compatibilityVersion", .s "Xcode 14.0"),
   ("developmentRegion", .s "en"),
   ("hasScannedForEncodings", .n 0),
   ("knownRegions", .arr [.s "en", .s "Base"]),
   ("mainGroup", .s (u 1)),
   ("productRefGroup", .s (u 2)),
   ("projectDirPath", .s ""),
   ("projectRoot", .s ""),
   ("targets", .arr [.s (u 4)])]

/-- The `fileRefs` dictionary in insertion order (lines 111, 151, 169,
181, 192, 201, 221). -/
def fileRefsList (o : XcodeProjectOptions) (fp : String) (u : Nat → String) :
    List (String × PObj) :=
  (u 18, obsydianFrameworkRefNode o fp) ::
  (o.sourceFiles.enum.map fun p => (u (srcRefIdx o p.1), srcFileRefNode p.2)) ++
  [(u (infoPlistIdx o), infoPlistRefNode o)] ++
  (match o.entitlementsPath with
   | some e => [(u (entIdx o), entitlementsRefNode e)]
   | none => []) ++
  [(u (assetsIdx o), assetsCatalogRefNode),
   (u 16, cocoaFrameworkRefNode),
   (u 14, productRefNode o)]

/-- The `buildFiles` dictionary in insertion order (lines 118, 138, 158,
209, 215). -/
def buildFilesList (o : XcodeProjectOptions) (u : Nat → String) :
    List (String × PObj) :=
  (u 19, obsydianFrameworkBuildNode (u 18)) ::
  (if o.isIOS then [(u 21, obsydianFrameworkBuildNode (u 18))] else []) ++
  (o.sourceFiles.enum.map fun p =>
    (u (srcBuildIdx o p.1), srcBuildFileNode (u (srcRefIdx o p.1)))) ++
  [(u 17, plainBuildFileNode (u 16)),
   (u 15, plainBuildFileNode (u (assetsIdx o)))]

/-- `sourceBuildFileUUIDs` (line 163). -/
def sourceBuildFileUUIDs (o : XcodeProjectOptions) (u : Nat → String) :
    List String :=
  o.sourceFiles.enum.map fun p => u (srcBuildIdx o p.1)

/-- The `objects` table in the source's assembly order (lines 554–579):
the fourteen named nodes, then `...fileRefs`, then `...buildFiles`, then
the embed phase appended for iOS. -/
def objectsList (o : XcodeProjectOptions) (fp : String) (u : Nat → String) :
    List (String × PObj) :=
  [(u 0, rootProjectNode u),
   (u 1, mainGroupNode o u),
   (u 2, productsGroupNode u),
   (u 3, frameworksGroupNode u),
   (u 4, nativeTargetNode o u),
   (u 5, configListNode [u 7, u 8]),
   (u 6, configListNode [u 9, u 10]),
   (u 11, sourcesPhaseNode (sourceBuildFileUUIDs o u)),
   (u 12, frameworksPhaseNode [u 17, u 19]),
   (u 13, resourcesPhaseNode [u 15]),
   (u 7, debugConfigNode o fp),
   (u 8, releaseConfigNode o fp),
   (u 9, projectDebugConfigNode o),
   (u 10, projectReleaseConfigNode o)] ++
  fileRefsList o fp u ++
  buildFilesList o u ++
  (if o.isIOS then [(u 20, embedFrameworksPhaseNode (u 21))] else [])

/-- Identifiers of the nodes in their construction order (dictionary
insertions at lines 111–227, then the object literals of lines 328–551).
This is the trace used to state that an aborted run created nothing. -/
def creationLog (o : XcodeProjectOptions) (u : Nat → String) : List String :=
  [u 18, u 19] ++
  (if o.isIOS then [u 21] else []) ++
  (o.sourceFiles.enum.flatMap fun p => [u (srcRefIdx o p.1), u (srcBuildIdx o p.1)]) ++
  [u (infoPlistIdx o)] ++
  (if o.entitlementsPath.isSome then [u (entIdx o)] else []) ++
  [u (assetsIdx o), u 16, u 17, u 15, u 14, u 7, u 8, u 9, u 10,
   u 11, u 12, u 13] ++
  (if o.isIOS then [u 20] else []) ++
  [u 5, u 6, u 4, u 1, u 2, u 3, u 0]

/-- The generator as a function of the options and the uuid source:
result plus the node-creation trace at the moment the function returns.
The framework check of lines 99–101 precedes every node creation (the
second, identical check at lines 279–281 is unreachable when the first
passes).  The second component is the creation log: empty on the error
path, since the throw happens before any node is built. -/
def generateXcodeProjectFrom (o : XcodeProjectOptions) (u : Nat → String) :
    Except GenError ProjectDoc × List String :=
  match o.frameworkPath with
  | none =>
    (.error (.configurationError
      "Framework path is required. Obsydian CLI only supports framework-based apps."), [])
  | some fp =>
    (.ok { archiveVersion := 1
           classes := []
           objectVersion := 56
           objects := objectsList o fp u
           rootObject := u 0 },
     creationLog o u)

/-- The generator over the `Math.random()` stream `g`. -/
def generateXcodeProjectRun (o : XcodeProjectOptions) (g : Nat → Nat) :
    Except GenError ProjectDoc × List String :=
  generateXcodeProjectFrom o (generateUUID g)

/-- The produced document alone. -/
def generateXcodeProject (o : XcodeProjectOptions) (g : Nat → Nat) :
    Except GenError ProjectDoc :=
  (generateXcodeProjectRun o g).1

end ProjectXcode

/-! ## `src/utils/xcodeProject.ts`: the enhance pass's phase relocation -/

/-- JS `Array.prototype.indexOf`: index of the first occurrence, `-1`
when absent. -/
def jsIndexOf {α : Type} [DecidableEq α] : List α → α → Int
  | [], _ => -1
  | a :: l, x =>
    if a = x then 0
    else
      let r := jsIndexOf l x
      if r = -1 then -1 else r + 1

/-- JS `Array.prototype.splice(i, 1)`: remove the element at index `i`. -/
def jsSpliceRemove {α : Type} (l : List α) (i : Nat) : List α :=
  l.take i ++ l.drop (i + 1)

/-- JS `Array.prototype.splice(i, 0, x)`: insert `x` at index `i`. -/
def jsSpliceInsert {α : Type} (l : List α) (i : Nat) (x : α) : List α :=
  l.take i ++ x :: l.drop i

namespace UtilsXcodeProject

/-- `enhanceProject`'s build-script phase handling
(`src/utils/xcodeProject.ts` lines 444–484): `createBuildPhase` appends
the new script phase to the target's phase list (behaviour of the
`@bacons/xcode` API), then the splice logic relocates it before the
frameworks phase when it ended up after it:

```
const scriptIndex = buildPhases.indexOf(buildScript);
const frameworksIndex = buildPhases.indexOf(frameworksPhase);
if (scriptIndex !== -1 && frameworksIndex !== -1 && scriptIndex > frameworksIndex) {
  buildPhases.splice(scriptIndex, 1);
  buildPhases.splice(frameworksIndex, 0, buildScript);
}
``` -/
def enhanceBuildPhases (phases : List String) (script frameworks : String) :
    List String :=
  let withScript := phases ++ [script]
  let scriptIndex := jsIndexOf withScript script
  let frameworksIndex := jsIndexOf withScript frameworks
  if scriptIndex ≠ -1 ∧ frameworksIndex ≠ -1 ∧ scriptIndex > frameworksIndex then
    jsSpliceInsert (jsSpliceRemove withScript scriptIndex.toNat)
      frameworksIndex.toNat script
  else withScript

/-- The phase ids of `createMinimalProject`'s native target
(`src/utils/xcodeProject.ts` line 274): sources, frameworks, resources. -/
def minimalBuildPhases (sourcesId frameworksId resourcesId : String) :
    List String :=
  [sourcesId, frameworksId, resourcesId]

end UtilsXcodeProject

/-! ## `src/commands/init.ts`: the scaffold pass as a write trace -/

/-- File writes performed by the `init` scaffold pass, in program order.
Directory creations are not file writes and are not traced. -/
inductive InitEvent where
  | writeConfig        -- `writeConfig(projectDir, config)` (all branches)
  | writeMainSource    -- `main.m` (line 128)
  | writeInfoPlist     -- `Info.plist` (line 133)
  | writeEntitlements  -- `entitlements.plist` (line 138, macOS only)
  | writeIcon          -- `generatePlaceholderIcon` (line 143, wrapped in try/catch)
  | writePbxproj       -- `project.pbxproj` (xcode.ts line 592)
  | writeScheme        -- the `.xcscheme` (xcode.ts line 599)
  | writeGitignore     -- `.gitignore` (line 184)
deriving DecidableEq, Repr

namespace InitCommand

/-- The options `init` passes to `generateXcodeProject`
(`src/commands/init.ts` lines 155–166). -/
def initOptions (projectDir projectName bundleId : String)
    (platforms : List Platform) (teamId frameworkPath : Option String) :
    ProjectXcode.XcodeProjectOptions :=
  { projectDir := projectDir
    projectName := projectName
    bundleId := bundleId
    platforms := platforms
    sourceFiles := ["main.m"]
    infoPlistPath := "Info.plist"
    entitlementsPath :=
      if platforms.contains .macos then some "entitlements.plist" else none
    minimumOsVersion := none
    teamId := teamId
    frameworkPath := frameworkPath }

/-- The body of `init`'s `try` block (`src/commands/init.ts` lines
86–188) as a trace of file writes plus the abort error, if any.
`frameworkPath` is the outcome of the framework prompt/download (the
download's failure is caught and leaves it `undefined`); `iconSuccess`
is the outcome of the icon generator's own try/catch.  The final
`catch` re-throws, so a generator error aborts the pass with every
earlier write already persisted and nothing deleted. -/
def initPassTrace (projectDir projectName bundleId : String)
    (platforms : List Platform) (teamId frameworkPath : Option String)
    (iconSuccess : Bool) (g : Nat → Nat) : List InitEvent × Option GenError :=
  let apple := platforms.contains .macos ∨ platforms.contains .ios
  let pre : List InitEvent :=
    [.writeConfig, .writeMainSource] ++
    (if apple then
      [.writeInfoPlist] ++
      (if platforms.contains .macos then
        [.writeEntitlements] ++ (if iconSuccess then [.writeIcon] else [])
      else [])
    else [])
  if apple then
    match ProjectXcode.generateXcodeProject
        (initOptions projectDir projectName bundleId platforms teamId frameworkPath) g with
    | .error e => (pre, some e)
    | .ok _ => (pre ++ [.writePbxproj, .writeScheme, .writeGitignore], none)
  else (pre ++ [.writeGitignore], none)

end InitCommand

/-! ## Sample inputs used by witnesses and counterexamples -/

open ProjectXcode

/-- A concrete macOS options record with a framework path. -/
def sampleOptions : XcodeProjectOptions :=
  { projectDir := "/w/app"
    projectName := "App"
    bundleId := "com.example.app"
    platforms := [.macos]
    sourceFiles := ["main.m"]
    infoPlistPath := "Info.plist"
    entitlementsPath := some "entitlements.plist"
    minimumOsVersion := none
    teamId := none
    frameworkPath := some "/w/app/Obsydian.xcframework" }

/-- The same record with no framework path supplied. -/
def sampleOptionsNoFramework : XcodeProjectOptions :=
  { sampleOptions with frameworkPath := none }

/-- A concrete iOS options record with a framework path. -/
def sampleOptionsIOS : XcodeProjectOptions :=
  { sampleOptions with platforms := [.ios], entitlementsPath := none }

/-! ## C10 — copy-on-overlay settings composition -/

/-- C10: building the Debug and Release configurations overlays the
shared base settings without mutating it: every base entry not overridden
by a configuration's own overlay is read back unchanged from that
configuration, and every overlay entry reads back as the overlay wrote
it.  Both configurations are derived from the one shared
`baseBuildSettings` map by the non-destructive spread `{...base, ...}`. -/
theorem c10_copy_on_overlay (o : XcodeProjectOptions) (fp : String) (k : String) :
    (lookupKey debugOverlay k = none →
      lookupKey (debugBuildSettings o fp) k = lookupKey (baseBuildSettings o fp) k) ∧
    (lookupKey (releaseOverlay o) k = none →
      lookupKey (releaseBuildSettings o fp) k = lookupKey (baseBuildSettings o fp) k) ∧
    (∀ v, lookupKey debugOverlay k = some v →
      lookupKey (debugBuildSettings o fp) k = some v) ∧
    (∀ v, lookupKey (releaseOverlay o) k = some v →
      lookupKey (releaseBuildSettings o fp) k = some v) :=
  ⟨fun h => lookupKey_jsSpread_of_none _ h,
   fun h => lookupKey_jsSpread_of_none _ h,
   fun _ h => lookupKey_jsSpread_of_some _ h,
   fun _ h => lookupKey_jsSpread_of_some _ h⟩

/-- Witness for C10 at a concrete options record: `PRODUCT_NAME` is a
base entry overridden by no overlay and survives into the Debug map;
`GCC_OPTIMIZATION_LEVEL` is a Debug overlay entry and reads back as
written. -/
theorem c10_copy_on_overlay_witness :
    lookupKey (debugBuildSettings sampleOptions "/w/app/Obsydian.xcframework")
        "PRODUCT_NAME" =
      lookupKey (baseBuildSettings sampleOptions "/w/app/Obsydian.xcframework")
        "PRODUCT_NAME" ∧
    lookupKey (debugBuildSettings sampleOptions "/w/app/Obsydian.xcframework")
        "GCC_OPTIMIZATION_LEVEL" = some (.s "0") :=
  ⟨(c10_copy_on_overlay sampleOptions "/w/app/Obsydian.xcframework"
      "PRODUCT_NAME").1 rfl,
   (c10_copy_on_overlay sampleOptions "/w/app/Obsydian.xcframework"
      "GCC_OPTIMIZATION_LEVEL").2.2.1 (.s "0") rfl⟩

/-! ## C5 — missing framework path fails before any node exists -/

/-- C5: with no framework path supplied, the generator fails with the
configuration error of `src/project/xcode.ts` lines 99–101, and its
node-creation trace is empty: the error is raised before any node —
in particular any settings-composition node — is created. -/
theorem c5_config_error_before_nodes (o : XcodeProjectOptions) (g : Nat → Nat)
    (h : o.frameworkPath = none) :
    generateXcodeProjectRun o g =
      (.error (.configurationError
        "Framework path is required. Obsydian CLI only supports framework-based apps."),
       []) := by
  unfold generateXcodeProjectRun generateXcodeProjectFrom
  rw [h]

/-- Witness for C5 at a concrete options record. -/
theorem c5_config_error_before_nodes_witness :
    generateXcodeProjectRun sampleOptionsNoFramework (fun _ => 0) =
      (.error (.configurationError
        "Framework path is required. Obsydian CLI only supports framework-based apps."),
       []) :=
  c5_config_error_before_nodes sampleOptionsNoFramework (fun _ => 0) rfl

/-! ## C1 — determinism machinery

Every `generateUUID` call of one run has allocation index `< allocCount o`
(note `allocCount o ≥ 22`, and the embed indices 20/21 are consumed only
on iOS, where `allocCount o ≥ 24`); two runs whose `Math.random()`
streams agree on the consumed prefix build identical documents. -/

theorem mem_enum_fst_lt {α : Type} {l : List α} {p : Nat × α} (h : p ∈ l.enum) :
    p.1 < l.length := by
  rw [List.mem_enum_iff_getElem?] at h
  exact (List.getElem?_eq_some.mp h).1

theorem flatMap_congr_left {α β : Type} {l : List α} {f g : α → List β}
    (h : ∀ a ∈ l, f a = g a) : l.flatMap f = l.flatMap g := by
  induction l with
  | nil => rfl
  | cons hd tl ih =>
    simp only [List.flatMap_cons]
    rw [h hd (List.mem_cons_self hd tl), ih fun a ha => h a (List.mem_cons_of_mem hd ha)]

theorem allocCount_ge (o : XcodeProjectOptions) : 22 ≤ allocCount o := by
  unfold allocCount assetsIdx infoPlistIdx srcBase
  split <;> split <;> omega

theorem srcRefIdx_lt (o : XcodeProjectOptions) {i : Nat}
    (h : i < o.sourceFiles.length) : srcRefIdx o i < allocCount o := by
  unfold srcRefIdx allocCount assetsIdx infoPlistIdx
  split <;> omega

theorem srcBuildIdx_lt (o : XcodeProjectOptions) {i : Nat}
    (h : i < o.sourceFiles.length) : srcBuildIdx o i < allocCount o := by
  unfold srcBuildIdx allocCount assetsIdx infoPlistIdx
  split <;> omega

theorem infoPlistIdx_lt (o : XcodeProjectOptions) :
    infoPlistIdx o < allocCount o := by
  unfold allocCount assetsIdx
  split <;> omega

theorem entIdx_lt (o : XcodeProjectOptions) : entIdx o < allocCount o := by
  unfold entIdx allocCount assetsIdx
  split <;> omega

theorem assetsIdx_lt (o : XcodeProjectOptions) : assetsIdx o < allocCount o := by
  unfold allocCount
  omega

section Congruence

variable {o : XcodeProjectOptions} {u₁ u₂ : Nat → String}

private theorem hu_small (hu : ∀ i < allocCount o, u₁ i = u₂ i)
    {i : Nat} (h : i ≤ 21) : u₁ i = u₂ i :=
  hu i (lt_of_lt_of_le (by omega) (allocCount_ge o))

theorem sourceBuildFileUUIDs_congr (hu : ∀ i < allocCount o, u₁ i = u₂ i) :
    sourceBuildFileUUIDs o u₁ = sourceBuildFileUUIDs o u₂ := by
  unfold sourceBuildFileUUIDs
  exact List.map_congr_left fun p hp => by
    rw [hu _ (srcBuildIdx_lt o (mem_enum_fst_lt hp))]

theorem buildPhaseIds_congr (hu : ∀ i < allocCount o, u₁ i = u₂ i) :
    buildPhaseIds o u₁ = buildPhaseIds o u₂ := by
  unfold buildPhaseIds
  rw [hu_small hu (by omega : 11 ≤ 21), hu_small hu (by omega : 12 ≤ 21),
    hu_small hu (by omega : 13 ≤ 21), hu_small hu (by omega : 20 ≤ 21)]

theorem nativeTargetNode_congr (hu : ∀ i < allocCount o, u₁ i = u₂ i) :
    nativeTargetNode o u₁ = nativeTargetNode o u₂ := by
  unfold nativeTargetNode
  rw [buildPhaseIds_congr hu, hu_small hu (by omega : 5 ≤ 21),
    hu_small hu (by omega : 14 ≤ 21)]

theorem mainGroupChildren_congr (hu : ∀ i < allocCount o, u₁ i = u₂ i) :
    mainGroupChildren o u₁ = mainGroupChildren o u₂ := by
  unfold mainGroupChildren
  rw [hu (infoPlistIdx o) (infoPlistIdx_lt o), hu (assetsIdx o) (assetsIdx_lt o),
    hu (entIdx o) (entIdx_lt o),
    List.map_congr_left fun p hp => by
      rw [hu _ (srcRefIdx_lt o (mem_enum_fst_lt hp))]]

theorem mainGroupNode_congr (hu : ∀ i < allocCount o, u₁ i = u₂ i) :
    mainGroupNode o u₁ = mainGroupNode o u₂ := by
  unfold mainGroupNode
  rw [mainGroupChildren_congr hu, hu_small hu (by omega : 3 ≤ 21),
    hu_small hu (by omega : 2 ≤ 21)]

theorem rootProjectNode_congr (hu : ∀ i < allocCount o, u₁ i = u₂ i) :
    rootProjectNode u₁ = rootProjectNode u₂ := by
  unfold rootProjectNode
  rw [hu_small hu (by omega : 4 ≤ 21), hu_small hu (by omega : 6 ≤ 21),
    hu_small hu (by omega : 1 ≤ 21), hu_small hu (by omega : 2 ≤ 21)]

theorem fileRefsList_congr (hu : ∀ i < allocCount o, u₁ i = u₂ i) (fp : String) :
    fileRefsList o fp u₁ = fileRefsList o fp u₂ := by
  unfold fileRefsList
  rw [hu_small hu (by omega : 18 ≤ 21), hu (infoPlistIdx o) (infoPlistIdx_lt o),
    hu (assetsIdx o) (assetsIdx_lt o), hu_small hu (by omega : 16 ≤ 21),
    hu_small hu (by omega : 14 ≤ 21),
    List.map_congr_left fun p hp => by
      rw [hu _ (srcRefIdx_lt o (mem_enum_fst_lt hp))]]
  cases he : o.entitlementsPath with
  | none => rfl
  | some e => simp [hu (entIdx o) (entIdx_lt o)]

theorem buildFilesList_congr (hu : ∀ i < allocCount o, u₁ i = u₂ i) :
    buildFilesList o u₁ = buildFilesList o u₂ := by
  unfold buildFilesList
  rw [hu_small hu (by omega : 19 ≤ 21), hu_small hu (by omega : 18 ≤ 21),
    hu_small hu (by omega : 21 ≤ 21), hu_small hu (by omega : 17 ≤ 21),
    hu_small hu (by omega : 16 ≤ 21), hu_small hu (by omega : 15 ≤ 21),
    hu (assetsIdx o) (assetsIdx_lt o),
    List.map_congr_left fun p hp => by
      rw [hu _ (srcBuildIdx_lt o (mem_enum_fst_lt hp)),
        hu _ (srcRefIdx_lt o (mem_enum_fst_lt hp))]]

theorem objectsList_congr (hu : ∀ i < allocCount o, u₁ i = u₂ i) (fp : String) :
    objectsList o fp u₁ = objectsList o fp u₂ := by
  unfold objectsList productsGroupNode frameworksGroupNode
  rw [rootProjectNode_congr hu, mainGroupNode_congr hu, nativeTargetNode_congr hu,
    sourceBuildFileUUIDs_congr hu, fileRefsList_congr hu fp, buildFilesList_congr hu,
    hu_small hu (by omega : 0 ≤ 21), hu_small hu (by omega : 1 ≤ 21),
    hu_small hu (by omega : 2 ≤ 21), hu_small hu (by omega : 3 ≤ 21),
    hu_small hu (by omega : 4 ≤ 21), hu_small hu (by omega : 5 ≤ 21),
    hu_small hu (by omega : 6 ≤ 21), hu_small hu (by omega : 7 ≤ 21),
    hu_small hu (by omega : 8 ≤ 21), hu_small hu (by omega : 9 ≤ 21),
    hu_small hu (by omega : 10 ≤ 21), hu_small hu (by omega : 11 ≤ 21),
    hu_small hu (by omega : 12 ≤ 21), hu_small hu (by omega : 13 ≤ 21),
    hu_small hu (by omega : 14 ≤ 21), hu_small hu (by omega : 15 ≤ 21),
    hu_small hu (by omega : 16 ≤ 21), hu_small hu (by omega : 17 ≤ 21),
    hu_small hu (by omega : 18 ≤ 21), hu_small hu (by omega : 19 ≤ 21),
    hu_small hu (by omega : 20 ≤ 21), hu_small hu (by omega : 21 ≤ 21)]

theorem creationLog_congr (hu : ∀ i < allocCount o, u₁ i = u₂ i) :
    creationLog o u₁ = creationLog o u₂ := by
  unfold creationLog
  rw [flatMap_congr_left fun p hp => by
      rw [hu _ (srcRefIdx_lt o (mem_enum_fst_lt hp)),
        hu _ (srcBuildIdx_lt o (mem_enum_fst_lt hp))],
    hu_small hu (by omega : 18 ≤ 21), hu_small hu (by omega : 19 ≤ 21),
    hu_small hu (by omega : 21 ≤ 21), hu_small hu (by omega : 20 ≤ 21),
    hu (infoPlistIdx o) (infoPlistIdx_lt o), hu (entIdx o) (entIdx_lt o),
    hu (assetsIdx o) (assetsIdx_lt o),
    hu_small hu (by omega : 16 ≤ 21), hu_small hu (by omega : 17 ≤ 21),
    hu_small hu (by omega : 15 ≤ 21), hu_small hu (by omega : 14 ≤ 21),
    hu_small hu (by omega : 7 ≤ 21), hu_small hu (by omega : 8 ≤ 21),
    hu_small hu (by omega : 9 ≤ 21), hu_small hu (by omega : 10 ≤ 21),
    hu_small hu (by omega : 11 ≤ 21), hu_small hu (by omega : 12 ≤ 21),
    hu_small hu (by omega : 13 ≤ 21), hu_small hu (by omega : 5 ≤ 21),
    hu_small hu (by omega : 6 ≤ 21), hu_small hu (by omega : 4 ≤ 21),
    hu_small hu (by omega : 1 ≤ 21), hu_small hu (by omega : 2 ≤ 21),
    hu_small hu (by omega : 3 ≤ 21), hu_small hu (by omega : 0 ≤ 21)]

theorem generateXcodeProjectFrom_congr (hu : ∀ i < allocCount o, u₁ i = u₂ i) :
    generateXcodeProjectFrom o u₁ = generateXcodeProjectFrom o u₂ := by
  unfold generateXcodeProjectFrom
  cases hfp : o.frameworkPath with
  | none => rfl
  | some fp =>
    show (Except.ok (ProjectDoc.mk 1 [] 56 (objectsList o fp u₁) (u₁ 0)),
        creationLog o u₁) =
      (Except.ok (ProjectDoc.mk 1 [] 56 (objectsList o fp u₂) (u₂ 0)),
        creationLog o u₂)
    rw [objectsList_congr hu fp, creationLog_congr hu,
      hu_small hu (by omega : 0 ≤ 21)]

end Congruence

/-! ## C1 — determinism relative to the random stream -/

/-- C1 (amended): the generator is a pure function of the options and of
the `Math.random()` draw sequence; two invocations with the same options
whose streams agree on the consumed prefix (`2 * allocCount o` draws)
produce identical documents and creation logs.  (As stated — for the
ambient, unseeded `Math.random()` — the claim is false; see the
counterexample.) -/
theorem c1_determinism_given_stream (o : XcodeProjectOptions)
    (g₁ g₂ : Nat → Nat) (h : ∀ j < 2 * allocCount o, g₁ j = g₂ j) :
    generateXcodeProjectRun o g₁ = generateXcodeProjectRun o g₂ := by
  unfold generateXcodeProjectRun
  apply generateXcodeProjectFrom_congr
  intro i hi
  unfold generateUUID
  rw [h (2 * i) (by omega), h (2 * i + 1) (by omega)]

/-- The root-object identifier of a generated document. -/
def docRootObject : Except GenError ProjectDoc → Option String
  | .ok d => some d.rootObject
  | .error _ => none

/-- Counterexample to C1 as stated: the same options run against two
different `Math.random()` draw sequences (draws `0.25` and `0.5`,
`k = 2^51` and `k = 2^52`) produce documents whose root-object
identifiers — serialized into the output — differ (`"44"` vs `"88"`). -/
theorem c1_counterexample :
    generateXcodeProject sampleOptions (fun _ => 2 ^ 51) ≠
      generateXcodeProject sampleOptions (fun _ => 2 ^ 52) :=
  fun h => absurd (congrArg docRootObject h) (by decide)

/-- Witness for C1: two streams that agree on the consumed prefix but
differ beyond it generate the same document. -/
theorem c1_determinism_given_stream_witness :
    generateXcodeProjectRun sampleOptions (fun j => j) =
      generateXcodeProjectRun sampleOptions
        (fun j => if j < 2 * allocCount sampleOptions then j else 12345) :=
  c1_determinism_given_stream sampleOptions _ _ (by decide)

/-! ## C9 — the allocator's tokens are hexadecimal but not fixed-length -/

def lowerHexChars : List Char := "0123456789abcdef".data

def upperHexChars : List Char := "0123456789ABCDEF".data

theorem hexChar_mem : ∀ d < 16, hexChar d ∈ lowerHexChars := by decide

theorem hexDigitsAux_subset :
    ∀ fuel n : Nat, ∀ c ∈ hexDigitsAux fuel n, c ∈ lowerHexChars := by
  intro fuel
  induction fuel with
  | zero =>
    intro n c hc
    cases n <;> simp [hexDigitsAux] at hc
  | succ f ih =>
    intro n c hc
    cases n with
    | zero => simp [hexDigitsAux] at hc
    | succ m =>
      rw [hexDigitsAux] at hc
      rcases List.mem_cons.mp hc with h | h
      · exact h ▸ hexChar_mem _ (Nat.mod_lt _ (by norm_num))
      · exact ih _ c h

theorem hexDigits_subset (n : Nat) : ∀ c ∈ hexDigits n, c ∈ lowerHexChars := by
  intro c hc
  unfold hexDigits at hc
  split at hc
  · simp at hc
    simp [hc, lowerHexChars]
  · exact hexDigitsAux_subset n n c (List.mem_reverse.mp hc)

theorem jsRandFracDigits_subset (k : Nat) :
    ∀ c ∈ jsRandFracDigits k, c ∈ lowerHexChars := by
  intro c hc
  unfold jsRandFracDigits stripTrailingZeros at hc
  have hc2 := List.dropWhile_subset _ (List.mem_reverse.mp hc)
  rw [List.mem_reverse] at hc2
  unfold padLeftZeros at hc2
  rcases List.mem_append.mp hc2 with h | h
  · rw [List.eq_of_mem_replicate h]
    simp [lowerHexChars]
  · exact hexDigits_subset _ c h

theorem jsRandChunk_subset (k : Nat) : ∀ c ∈ jsRandChunk k, c ∈ lowerHexChars := by
  intro c hc
  unfold jsRandChunk jsRandStringChars at hc
  split at hc
  · simp at hc
  · exact jsRandFracDigits_subset k c (List.take_subset _ _ hc)

theorem jsRandChunk_length_le (k : Nat) : (jsRandChunk k).length ≤ 8 := by
  unfold jsRandChunk
  simp [List.length_take]

theorem toUpper_mem_upper : ∀ c ∈ lowerHexChars, c.toUpper ∈ upperHexChars := by
  decide

/-- C9 (amended): every identifier produced by either allocator consists
solely of uppercase hexadecimal characters and has length at most 16 —
but the length is not fixed across calls (see the counterexample): it
shrinks whenever a draw's hex rendering has fewer than eight fractional
digits.  (`src/project/xcode.ts` additionally slices to 24 characters,
which never truncates a 16-character token.) -/
theorem c9_hex_token (g : Nat → Nat) (i : Nat) :
    (∀ c ∈ (ProjectXcode.generateUUID g i).data, c ∈ upperHexChars) ∧
    (ProjectXcode.generateUUID g i).length ≤ 16 ∧
    (∀ c ∈ (UtilsXcodeProject.generateUUID g i).data, c ∈ upperHexChars) ∧
    (UtilsXcodeProject.generateUUID g i).length ≤ 16 := by
  have hmem : ∀ c ∈ (jsRandChunk (g (2 * i)) ++ jsRandChunk (g (2 * i + 1))).map
      Char.toUpper, c ∈ upperHexChars := by
    intro c hc
    rcases List.mem_map.mp hc with ⟨d, hd, rfl⟩
    rcases List.mem_append.mp hd with h | h
    · exact toUpper_mem_upper d (jsRandChunk_subset _ d h)
    · exact toUpper_mem_upper d (jsRandChunk_subset _ d h)
  have hlen : ((jsRandChunk (g (2 * i)) ++ jsRandChunk (g (2 * i + 1))).map
      Char.toUpper).length ≤ 16 := by
    rw [List.length_map, List.length_append]
    have h1 := jsRandChunk_length_le (g (2 * i))
    have h2 := jsRandChunk_length_le (g (2 * i + 1))
    omega
  refine ⟨fun c hc => hmem c (List.take_subset _ _ hc), ?_, hmem, hlen⟩
  show (List.take 24 _).length ≤ 16
  rw [List.length_take]
  omega

/-- Counterexample to C9 as stated: within one run, the first allocation
(draws `0.5`, rendered `"0.8"`) yields a 2-character identifier while the
second (full-precision draws) yields a 16-character one — the length is
not fixed. -/
theorem c9_counterexample :
    (ProjectXcode.generateUUID
        (fun j => if j < 2 then 2 ^ 52 else 2 ^ 52 + 1) 0).length ≠
      (ProjectXcode.generateUUID
        (fun j => if j < 2 then 2 ^ 52 else 2 ^ 52 + 1) 1).length := by
  decide

/-! ## C8 — no collision detection in the allocator -/

theorem toUpper_inj_on_lower :
    ∀ c ∈ lowerHexChars, ∀ d ∈ lowerHexChars, c.toUpper = d.toUpper → c = d := by
  decide

theorem map_toUpper_inj :
    ∀ (a : List Char), (∀ c ∈ a, c ∈ lowerHexChars) →
    ∀ (b : List Char), (∀ c ∈ b, c ∈ lowerHexChars) →
      a.map Char.toUpper = b.map Char.toUpper → a = b := by
  intro a
  induction a with
  | nil =>
    intro _ b _ h
    cases b with
    | nil => rfl
    | cons hd tl => simp at h
  | cons hd tl ih =>
    intro ha b hb h
    cases b with
    | nil => simp at h
    | cons hd₂ tl₂ =>
      simp only [List.map_cons, List.cons.injEq] at h
      have hhd : hd = hd₂ :=
        toUpper_inj_on_lower hd (ha hd (List.mem_cons_self hd tl))
          hd₂ (hb hd₂ (List.mem_cons_self hd₂ tl₂)) h.1
      have htl : tl = tl₂ :=
        ih (fun c hc => ha c (List.mem_cons_of_mem hd hc)) tl₂
          (fun c hc => hb c (List.mem_cons_of_mem hd₂ hc)) h.2
      rw [hhd, htl]

/-- C8 (amended): the allocator performs no collision detection, no
retry and raises no error (see the counterexample: a repeating stream
silently hands the same identifier to two distinct allocations while the
generator succeeds).  Uniqueness holds only by chance: when the drawn
chunks are full-length and pairwise distinct, the allocated identifiers
are pairwise distinct. -/
theorem c8_injective_under_distinct_draws (g : Nat → Nat) (N : Nat)
    (hlen : ∀ j < 2 * N, (jsRandChunk (g j)).length = 8)
    (hdist : ∀ j₁ < 2 * N, ∀ j₂ < 2 * N, j₁ ≠ j₂ →
      jsRandChunk (g j₁) ≠ jsRandChunk (g j₂)) :
    ∀ i₁ < N, ∀ i₂ < N, i₁ ≠ i₂ →
      ProjectXcode.generateUUID g i₁ ≠ ProjectXcode.generateUUID g i₂ := by
  intro i₁ h₁ i₂ h₂ hne heq
  have heq' := congrArg String.data heq
  unfold ProjectXcode.generateUUID at heq'
  simp only at heq'
  rw [List.take_of_length_le (by
      rw [List.length_map, List.length_append]
      have := jsRandChunk_length_le (g (2 * i₁))
      have := jsRandChunk_length_le (g (2 * i₁ + 1))
      omega),
    List.take_of_length_le (by
      rw [List.length_map, List.length_append]
      have := jsRandChunk_length_le (g (2 * i₂))
      have := jsRandChunk_length_le (g (2 * i₂ + 1))
      omega),
    List.map_append, List.map_append] at heq'
  have hinj := List.append_inj heq' (by
    rw [List.length_map, List.length_map, hlen (2 * i₁) (by omega),
      hlen (2 * i₂) (by omega)])
  have hchunk : jsRandChunk (g (2 * i₁)) = jsRandChunk (g (2 * i₂)) :=
    map_toUpper_inj _ (jsRandChunk_subset _) _ (jsRandChunk_subset _) hinj.1
  exact hdist (2 * i₁) (by omega) (2 * i₂) (by omega) (by omega) hchunk

/-- Counterexample to C8 as stated: with a constant draw stream the
first two allocations — used for the root project node and the main
group, two distinct nodes — return the same identifier, and the
generator nevertheless succeeds: no collision is detected, nothing is
retried, no error is raised. -/
theorem c8_counterexample :
    ProjectXcode.generateUUID (fun _ => 2 ^ 52 + 1) 0 =
      ProjectXcode.generateUUID (fun _ => 2 ^ 52 + 1) 1 ∧
    (generateXcodeProject sampleOptions (fun _ => 2 ^ 52 + 1)).isOk = true := by
  constructor
  · rfl
  · rfl

/-- Witness for the amended C8 at a stream whose four relevant chunks
are full-length and pairwise distinct. -/
theorem c8_injective_under_distinct_draws_witness :
    ProjectXcode.generateUUID (fun j => 2 ^ 52 + (j + 1) * 2 ^ 29 + 1) 0 ≠
      ProjectXcode.generateUUID (fun j => 2 ^ 52 + (j + 1) * 2 ^ 29 + 1) 1 :=
  c8_injective_under_distinct_draws (fun j => 2 ^ 52 + (j + 1) * 2 ^ 29 + 1) 2
    (by decide) (by decide) 0 (by decide) 1 (by decide) (by decide)

/-! ## C3 — the enhance pass relocates the build-script phase -/

theorem jsIndexOf_append_self {α : Type} [DecidableEq α] {l : List α} {x : α}
    (h : x ∉ l) : jsIndexOf (l ++ [x]) x = (l.length : Int) := by
  induction l with
  | nil => simp [jsIndexOf]
  | cons a tl ih =>
    have hax : a ≠ x := fun hax => h (hax ▸ List.mem_cons_self a tl)
    have htl : x ∉ tl := fun hm => h (List.mem_cons_of_mem a hm)
    rw [List.cons_append, jsIndexOf, if_neg hax, ih htl]
    have hne : ((tl.length : Int)) ≠ -1 := by omega
    simp only [hne, if_neg, List.length_cons]
    push_cast
    ring

theorem jsIndexOf_append_of_mem {α : Type} [DecidableEq α] {l : List α} {x : α}
    (h : x ∈ l) (l₂ : List α) :
    jsIndexOf (l ++ l₂) x = (l.indexOf x : Int) := by
  induction l with
  | nil => simp at h
  | cons a tl ih =>
    by_cases hax : a = x
    · subst hax
      rw [List.cons_append, jsIndexOf, if_pos rfl, List.indexOf_cons_self]
      rfl
    · have hmem : x ∈ tl := by
        rcases List.mem_cons.mp h with h' | h'
        · exact absurd h'.symm hax
        · exact h'
      rw [List.cons_append, jsIndexOf, if_neg hax, ih hmem]
      have hne : ((tl.indexOf x : Int)) ≠ -1 := by omega
      simp only [hne, if_neg]
      rw [List.indexOf_cons_ne _ hax]
      push_cast
      ring

theorem not_mem_take_indexOf {α : Type} [DecidableEq α] (l : List α) (x : α) :
    x ∉ l.take (l.indexOf x) := by
  induction l with
  | nil => simp
  | cons a tl ih =>
    by_cases hax : a = x
    · subst hax
      simp [List.indexOf_cons_self]
    · rw [List.indexOf_cons_ne _ hax, List.take_succ_cons]
      intro hmem
      rcases List.mem_cons.mp hmem with h | h
      · exact hax h.symm
      · exact ih h

/-- C3: for every target that needs the pre-link build-script phase, the
relocation logic of `enhanceProject` places the script phase at a
strictly smaller index than the Frameworks phase, even though
`createBuildPhase` appended it at the end (after the Frameworks phase). -/
theorem c3_script_before_frameworks (phases : List String)
    (script frameworks : String) (hfw : frameworks ∈ phases)
    (hs : script ∉ phases) (hne : script ≠ frameworks) :
    (UtilsXcodeProject.enhanceBuildPhases phases script frameworks).indexOf script <
      (UtilsXcodeProject.enhanceBuildPhases phases script frameworks).indexOf
        frameworks := by
  have hsi : jsIndexOf (phases ++ [script]) script = (phases.length : Int) :=
    jsIndexOf_append_self hs
  have hfi : jsIndexOf (phases ++ [script]) frameworks =
      (phases.indexOf frameworks : Int) := jsIndexOf_append_of_mem hfw [script]
  have hlt : phases.indexOf frameworks < phases.length :=
    List.indexOf_lt_length.mpr hfw
  have hcond : (phases.length : Int) ≠ -1 ∧
      ((phases.indexOf frameworks : Int)) ≠ -1 ∧
      (phases.length : Int) > (phases.indexOf frameworks : Int) :=
    ⟨by omega, by omega, by exact_mod_cast hlt⟩
  simp only [UtilsXcodeProject.enhanceBuildPhases]
  rw [hsi, hfi, if_pos hcond]
  have hremove : jsSpliceRemove (phases ++ [script]) ((phases.length : Int)).toNat
      = phases := by
    unfold jsSpliceRemove
    rw [Int.toNat_natCast, List.take_left, List.drop_eq_nil_of_le (by
      simp [List.length_append])]
    simp
  rw [hremove]
  unfold jsSpliceInsert
  rw [Int.toNat_natCast]
  set fi := phases.indexOf frameworks with hfidef
  have hscript_idx : (phases.take fi ++ script :: phases.drop fi).indexOf script
      = (phases.take fi).length := by
    rw [List.indexOf_append_of_not_mem (fun hmem =>
      hs (List.take_subset fi phases hmem)), List.indexOf_cons_self]
    ring
  have hnotmem : frameworks ∉ phases.take fi := by
    rw [hfidef]
    exact not_mem_take_indexOf phases frameworks
  have hfw_idx : (phases.take fi).length + 1 ≤
      (phases.take fi ++ script :: phases.drop fi).indexOf frameworks := by
    rw [List.indexOf_append_of_not_mem hnotmem, List.indexOf_cons_ne _ hne]
    omega
  omega

/-- Witness for C3 on the concrete minimal-project phase list (sources,
frameworks, resources) of `createMinimalProject`, with the script phase
appended after the Frameworks phase. -/
theorem c3_script_before_frameworks_witness :
    (UtilsXcodeProject.enhanceBuildPhases
        (UtilsXcodeProject.minimalBuildPhases "SRC" "FRW" "RSC")
        "SCRIPT" "FRW").indexOf "SCRIPT" <
      (UtilsXcodeProject.enhanceBuildPhases
        (UtilsXcodeProject.minimalBuildPhases "SRC" "FRW" "RSC")
        "SCRIPT" "FRW").indexOf "FRW" :=
  c3_script_before_frameworks _ "SCRIPT" "FRW" (by decide) (by decide) (by decide)

/-! ## C7 — writes before an abort persist -/

/-- Counterexample to C7 as stated: an `init` scaffold pass over
platform macOS with no framework path writes the config, the main
source, `Info.plist` and `entitlements.plist` (and the icon), then
aborts with the generator's configuration error; the writes happened
before the abort and nothing removes them. -/
theorem c7_counterexample :
    InitCommand.initPassTrace "/w" "app" "com.obsydian.app" [.macos] none none
        true (fun _ => 0) =
      ([.writeConfig, .writeMainSource, .writeInfoPlist, .writeEntitlements,
        .writeIcon],
       some (.configurationError
         "Framework path is required. Obsydian CLI only supports framework-based apps.")) := by
  rfl

/-- C7 (amended): when the scaffold pass aborts, the abort is the
generator's configuration error and none of the generator's own outputs
(`project.pbxproj`, the scheme) have been written — but the pass's
earlier writes (config and main source, at least) have already happened
and persist in the trace. -/
theorem c7_abort_preserves_prior_writes (pd pn bid : String)
    (platforms : List Platform) (tid fp : Option String) (ic : Bool)
    (g : Nat → Nat) (e : GenError)
    (h : (InitCommand.initPassTrace pd pn bid platforms tid fp ic g).2 = some e) :
    InitEvent.writePbxproj ∉
      (InitCommand.initPassTrace pd pn bid platforms tid fp ic g).1 ∧
    InitEvent.writeScheme ∉
      (InitCommand.initPassTrace pd pn bid platforms tid fp ic g).1 ∧
    InitEvent.writeConfig ∈
      (InitCommand.initPassTrace pd pn bid platforms tid fp ic g).1 ∧
    InitEvent.writeMainSource ∈
      (InitCommand.initPassTrace pd pn bid platforms tid fp ic g).1 ∧
    ∃ msg, e = .configurationError msg := by
  by_cases happle :
    (platforms.contains Platform.macos = true ∨ platforms.contains Platform.ios = true)
  · cases hgen : ProjectXcode.generateXcodeProject
        (InitCommand.initOptions pd pn bid platforms tid fp) g with
    | error e2 =>
      simp only [InitCommand.initPassTrace] at h ⊢
      rw [if_pos happle] at h ⊢
      rw [hgen] at h ⊢
      simp only [] at h ⊢
      refine ⟨?_, ?_, ?_, ?_, ?_⟩
      · by_cases hm : platforms.contains Platform.macos = true <;>
          by_cases hi : ic = true <;> simp [hm, hi]
      · by_cases hm : platforms.contains Platform.macos = true <;>
          by_cases hi : ic = true <;> simp [hm, hi]
      · simp
      · simp
      · cases e2 with
        | configurationError m => exact ⟨m, (Option.some.inj h).symm⟩
    | ok doc =>
      simp only [InitCommand.initPassTrace] at h
      rw [if_pos happle] at h
      rw [hgen] at h
      simp at h
  · simp only [InitCommand.initPassTrace] at h
    rw [if_neg happle] at h
    simp at h

/-- Witness for the amended C7 at the concrete failing input. -/
theorem c7_abort_preserves_prior_writes_witness :
    InitEvent.writePbxproj ∉
      (InitCommand.initPassTrace "/w" "app" "com.obsydian.app" [.macos] none none
        true (fun _ => 0)).1 ∧
    InitEvent.writeScheme ∉
      (InitCommand.initPassTrace "/w" "app" "com.obsydian.app" [.macos] none none
        true (fun _ => 0)).1 ∧
    InitEvent.writeConfig ∈
      (InitCommand.initPassTrace "/w" "app" "com.obsydian.app" [.macos] none none
        true (fun _ => 0)).1 ∧
    InitEvent.writeMainSource ∈
      (InitCommand.initPassTrace "/w" "app" "com.obsydian.app" [.macos] none none
        true (fun _ => 0)).1 ∧
    ∃ msg, (GenError.configurationError
      "Framework path is required. Obsydian CLI only supports framework-based apps.")
        = GenError.configurationError msg :=
  c7_abort_preserves_prior_writes "/w" "app" "com.obsydian.app" [.macos] none none
    true (fun _ => 0) _ rfl

/-! ## Infrastructure for C2/C4/C6 — resolving identifiers in the table -/

/-- Lookup in the objects table (first entry with the given key, like a
JS property read). -/
def lookupObj : List (String × PObj) → String → Option PObj
  | [], _ => none
  | (k', v) :: rest, k => if k' = k then some v else lookupObj rest k

theorem lookupObj_eq_of_nodup {objs : List (String × PObj)}
    (h : (objs.map Prod.fst).Nodup) {k : String} {v : PObj}
    (hmem : (k, v) ∈ objs) : lookupObj objs k = some v := by
  induction objs with
  | nil => simp at hmem
  | cons hd tl ih =>
    rcases List.mem_cons.mp hmem with rfl | hmem2
    · simp [lookupObj]
    · have hk : hd.1 ≠ k := by
        intro hk
        have : hd.1 ∈ tl.map Prod.fst := hk ▸ List.mem_map_of_mem Prod.fst hmem2
        exact (List.nodup_cons.mp (by simpa using h)).1 this
      obtain ⟨k', v'⟩ := hd
      rw [lookupObj, if_neg hk]
      exact ih (List.nodup_cons.mp (by simpa using h)).2 hmem2

/-- The string elements of a JS array value. -/
def strsOf : List PValue → List String
  | [] => []
  | .s v :: rest => v :: strsOf rest
  | _ :: rest => strsOf rest

@[simp]
theorem strsOf_nil : strsOf [] = [] := rfl

@[simp]
theorem strsOf_cons_s (v : String) (rest : List PValue) :
    strsOf (.s v :: rest) = v :: strsOf rest := rfl

theorem strsOf_append (a b : List PValue) :
    strsOf (a ++ b) = strsOf a ++ strsOf b := by
  induction a with
  | nil => rfl
  | cons hd tl ih => cases hd <;> simp [strsOf, ih]

attribute [simp] strsOf_append

@[simp]
theorem strsOf_map_s (l : List String) : strsOf (l.map .s) = l := by
  induction l with
  | nil => rfl
  | cons hd tl ih => simp [strsOf, ih]

/-- The reference fields named by the specification's integrity claim:
a BuildFile's `fileRef`; a Target's `buildConfigurationList`,
`buildPhases` and `productReference`; a Group's `children`; a
ConfigurationList's `buildConfigurations`; a Project's `targets`,
`mainGroup` and `productRefGroup`. -/
def refTargets (node : PObj) : List String :=
  match lookupKey node "isa" with
  | some (.s "PBXBuildFile") =>
    (match lookupKey node "fileRef" with | some (.s r) => [r] | _ => [])
  | some (.s "PBXNativeTarget") =>
    (match lookupKey node "buildConfigurationList" with
     | some (.s r) => [r] | _ => []) ++
    (match lookupKey node "buildPhases" with | some (.arr vs) => strsOf vs | _ => []) ++
    (match lookupKey node "productReference" with | some (.s r) => [r] | _ => [])
  | some (.s "PBXGroup") =>
    (match lookupKey node "children" with | some (.arr vs) => strsOf vs | _ => [])
  | some (.s "XCConfigurationList") =>
    (match lookupKey node "buildConfigurations" with
     | some (.arr vs) => strsOf vs | _ => [])
  | some (.s "PBXProject") =>
    (match lookupKey node "targets" with | some (.arr vs) => strsOf vs | _ => []) ++
    (match lookupKey node "mainGroup" with | some (.s r) => [r] | _ => []) ++
    (match lookupKey node "productRefGroup" with | some (.s r) => [r] | _ => [])
  | _ => []

/-- All reference-field identifiers of a document, together with its
`rootObject`. -/
def docRefTargets (doc : ProjectDoc) : List String :=
  doc.rootObject :: doc.objects.flatMap fun kv => refTargets kv.2

section RefTargetComputations

variable (o : XcodeProjectOptions) (fp : String) (u : Nat → String)

@[simp]
theorem refTargets_rootProjectNode :
    refTargets (rootProjectNode u) = [u 4] ++ [u 1] ++ [u 2] := by
  simp [refTargets, rootProjectNode, lookupKey]

@[simp]
theorem refTargets_mainGroupNode :
    refTargets (mainGroupNode o u) = mainGroupChildren o u ++ [u 3, u 2] := by
  simp [refTargets, mainGroupNode, lookupKey]

@[simp]
theorem refTargets_productsGroupNode :
    refTargets (productsGroupNode u) = [u 14] := by
  simp [refTargets, productsGroupNode, lookupKey, strsOf]

@[simp]
theorem refTargets_frameworksGroupNode :
    refTargets (frameworksGroupNode u) = [u 16, u 18] := by
  simp [refTargets, frameworksGroupNode, lookupKey, strsOf]

@[simp]
theorem refTargets_nativeTargetNode :
    refTargets (nativeTargetNode o u) = [u 5] ++ buildPhaseIds o u ++ [u 14] := by
  simp [refTargets, nativeTargetNode, lookupKey]

@[simp]
theorem refTargets_configListNode (ids : List String) :
    refTargets (configListNode ids) = ids := by
  simp [refTargets, configListNode, lookupKey]

@[simp]
theorem refTargets_sourcesPhaseNode (ids : List String) :
    refTargets (sourcesPhaseNode ids) = [] := by
  simp [refTargets, sourcesPhaseNode, lookupKey]

@[simp]
theorem refTargets_frameworksPhaseNode (ids : List String) :
    refTargets (frameworksPhaseNode ids) = [] := by
  simp [refTargets, frameworksPhaseNode, lookupKey]

@[simp]
theorem refTargets_resourcesPhaseNode (ids : List String) :
    refTargets (resourcesPhaseNode ids) = [] := by
  simp [refTargets, resourcesPhaseNode, lookupKey]

@[simp]
theorem refTargets_embedFrameworksPhaseNode (r : String) :
    refTargets (embedFrameworksPhaseNode r) = [] := by
  simp [refTargets, embedFrameworksPhaseNode, lookupKey]

@[simp]
theorem refTargets_debugConfigNode :
    refTargets (debugConfigNode o fp) = [] := by
  simp [refTargets, debugConfigNode, lookupKey]

@[simp]
theorem refTargets_releaseConfigNode :
    refTargets (releaseConfigNode o fp) = [] := by
  simp [refTargets, releaseConfigNode, lookupKey]

@[simp]
theorem refTargets_projectDebugConfigNode :
    refTargets (projectDebugConfigNode o) = [] := by
  simp [refTargets, projectDebugConfigNode, lookupKey]

@[simp]
theorem refTargets_projectReleaseConfigNode :
    refTargets (projectReleaseConfigNode o) = [] := by
  simp [refTargets, projectReleaseConfigNode, lookupKey]

@[simp]
theorem refTargets_obsydianFrameworkRefNode :
    refTargets (obsydianFrameworkRefNode o fp) = [] := by
  simp [refTargets, obsydianFrameworkRefNode, lookupKey]

@[simp]
theorem refTargets_obsydianFrameworkBuildNode (r : String) :
    refTargets (obsydianFrameworkBuildNode r) = [r] := by
  simp [refTargets, obsydianFrameworkBuildNode, lookupKey]

@[simp]
theorem refTargets_srcFileRefNode (f : String) :
    refTargets (srcFileRefNode f) = [] := by
  simp [refTargets, srcFileRefNode, lookupKey]

@[simp]
theorem refTargets_srcBuildFileNode (r : String) :
    refTargets (srcBuildFileNode r) = [r] := by
  simp [refTargets, srcBuildFileNode, lookupKey]

@[simp]
theorem refTargets_infoPlistRefNode :
    refTargets (infoPlistRefNode o) = [] := by
  simp [refTargets, infoPlistRefNode, lookupKey]

@[simp]
theorem refTargets_entitlementsRefNode (e : String) :
    refTargets (entitlementsRefNode e) = [] := by
  simp [refTargets, entitlementsRefNode, lookupKey]

@[simp]
theorem refTargets_assetsCatalogRefNode :
    refTargets assetsCatalogRefNode = [] := by
  simp [refTargets, assetsCatalogRefNode, lookupKey]

@[simp]
theorem refTargets_cocoaFrameworkRefNode :
    refTargets cocoaFrameworkRefNode = [] := by
  simp [refTargets, cocoaFrameworkRefNode, lookupKey]

@[simp]
theorem refTargets_plainBuildFileNode (r : String) :
    refTargets (plainBuildFileNode r) = [r] := by
  simp [refTargets, plainBuildFileNode, lookupKey]

@[simp]
theorem refTargets_productRefNode :
    refTargets (productRefNode o) = [] := by
  simp [refTargets, productRefNode, lookupKey]

end RefTargetComputations

section KeyMembership

variable (o : XcodeProjectOptions) (fp : String) (u : Nat → String)

/-- The keys of the generated objects table. -/
def objKeys : List String := (objectsList o fp u).map Prod.fst

theorem key_mem_head : ∀ i ∈ [0, 1, 2, 3, 4, 5, 6, 11, 12, 13, 7, 8, 9, 10],
    u i ∈ objKeys o fp u := by
  intro i hi
  fin_cases hi <;> simp [objKeys, objectsList]

theorem key_mem_fileRefs : ∀ i ∈ [18, 16, 14], u i ∈ objKeys o fp u := by
  intro i hi
  fin_cases hi <;> simp [objKeys, objectsList, fileRefsList]

theorem key_mem_buildFiles : ∀ i ∈ [19, 17, 15], u i ∈ objKeys o fp u := by
  intro i hi
  fin_cases hi <;> simp [objKeys, objectsList, buildFilesList]

theorem key_mem_embedPhase (hios : o.isIOS = true) : u 20 ∈ objKeys o fp u := by
  simp [objKeys, objectsList, hios]

theorem key_mem_embedBuild (hios : o.isIOS = true) : u 21 ∈ objKeys o fp u := by
  simp [objKeys, objectsList, buildFilesList, hios]

theorem key_mem_srcRef {p : Nat × String} (hp : p ∈ o.sourceFiles.enum) :
    u (srcRefIdx o p.1) ∈ objKeys o fp u := by
  have hx : u (srcRefIdx o p.1) ∈
      List.map (Prod.fst ∘ fun q => (u (srcRefIdx o q.1), srcFileRefNode q.2))
        o.sourceFiles.enum := List.mem_map.mpr ⟨p, hp, rfl⟩
  simp only [objKeys, objectsList, fileRefsList, List.map_append, List.mem_append,
    List.map_cons, List.mem_cons, List.map_map]
  tauto

theorem key_mem_srcBuild {p : Nat × String} (hp : p ∈ o.sourceFiles.enum) :
    u (srcBuildIdx o p.1) ∈ objKeys o fp u := by
  have hx : u (srcBuildIdx o p.1) ∈
      List.map (Prod.fst ∘ fun q =>
        (u (srcBuildIdx o q.1), srcBuildFileNode (u (srcRefIdx o q.1))))
        o.sourceFiles.enum := List.mem_map.mpr ⟨p, hp, rfl⟩
  simp only [objKeys, objectsList, buildFilesList, List.map_append, List.mem_append,
    List.map_cons, List.mem_cons, List.map_map]
  tauto

theorem key_mem_infoPlist : u (infoPlistIdx o) ∈ objKeys o fp u := by
  simp [objKeys, objectsList, fileRefsList]

theorem key_mem_ent (he : o.entitlementsPath.isSome = true) :
    u (entIdx o) ∈ objKeys o fp u := by
  obtain ⟨e, he2⟩ := Option.isSome_iff_exists.mp he
  simp [objKeys, objectsList, fileRefsList, he2]

theorem key_mem_assets : u (assetsIdx o) ∈ objKeys o fp u := by
  simp [objKeys, objectsList, fileRefsList]

end KeyMembership

@[simp]
theorem flatMap_fun_nil {α β : Type} (l : List α) :
    (l.flatMap fun _ => ([] : List β)) = [] := by
  induction l with
  | nil => rfl
  | cons hd tl ih => simp [ih]

section KeyIndexLemmas

variable (o : XcodeProjectOptions) (fp : String) (u : Nat → String)

theorem key_u0 : u 0 ∈ objKeys o fp u := key_mem_head o fp u 0 (by simp)

theorem key_u1 : u 1 ∈ objKeys o fp u := key_mem_head o fp u 1 (by simp)

theorem key_u2 : u 2 ∈ objKeys o fp u := key_mem_head o fp u 2 (by simp)

theorem key_u3 : u 3 ∈ objKeys o fp u := key_mem_head o fp u 3 (by simp)

theorem key_u4 : u 4 ∈ objKeys o fp u := key_mem_head o fp u 4 (by simp)

theorem key_u5 : u 5 ∈ objKeys o fp u := key_mem_head o fp u 5 (by simp)

theorem key_u6 : u 6 ∈ objKeys o fp u := key_mem_head o fp u 6 (by simp)

theorem key_u7 : u 7 ∈ objKeys o fp u := key_mem_head o fp u 7 (by simp)

theorem key_u8 : u 8 ∈ objKeys o fp u := key_mem_head o fp u 8 (by simp)

theorem key_u9 : u 9 ∈ objKeys o fp u := key_mem_head o fp u 9 (by simp)

theorem key_u10 : u 10 ∈ objKeys o fp u := key_mem_head o fp u 10 (by simp)

theorem key_u11 : u 11 ∈ objKeys o fp u := key_mem_head o fp u 11 (by simp)

theorem key_u12 : u 12 ∈ objKeys o fp u := key_mem_head o fp u 12 (by simp)

theorem key_u13 : u 13 ∈ objKeys o fp u := key_mem_head o fp u 13 (by simp)

theorem key_u14 : u 14 ∈ objKeys o fp u := key_mem_fileRefs o fp u 14 (by simp)

theorem key_u16 : u 16 ∈ objKeys o fp u := key_mem_fileRefs o fp u 16 (by simp)

theorem key_u18 : u 18 ∈ objKeys o fp u := key_mem_fileRefs o fp u 18 (by simp)

theorem key_u15 : u 15 ∈ objKeys o fp u := key_mem_buildFiles o fp u 15 (by simp)

theorem key_u17 : u 17 ∈ objKeys o fp u := key_mem_buildFiles o fp u 17 (by simp)

theorem key_u19 : u 19 ∈ objKeys o fp u := key_mem_buildFiles o fp u 19 (by simp)


end KeyIndexLemmas

/-! ## C2 — referential integrity of the generated graph -/

/-- A `Math.random()` stream whose chunks (and hence allocated
identifiers) are pairwise distinct: draw `j` is `2^52 + j·2^24 + 1`,
whose chunk is `"80000" ++ <3 hex digits of 8j> ++ ...`. -/
def distinctStream : Nat → Nat := fun j => 2 ^ 52 + j * 2 ^ 24 + 1

/-- Core of C2, over an arbitrary identifier source `u`: every
reference-field identifier of the assembled document is a key of its
objects table. -/
theorem c2_core (o : XcodeProjectOptions) (fp : String) (u : Nat → String) :
    ∀ r ∈ docRefTargets (ProjectDoc.mk 1 [] 56 (objectsList o fp u) (u 0)),
      r ∈ objKeys o fp u := by
  intro r hr
  simp only [docRefTargets, List.mem_cons] at hr
  rcases hr with rfl | hr
  · exact key_u0 o fp u
  · rcases hent : o.entitlementsPath with _ | e <;>
      rcases hB : o.isIOS with _ | _
    · simp [objectsList, fileRefsList, buildFilesList, mainGroupChildren,
        buildPhaseIds, List.flatMap_map, hent, hB] at hr
      rcases hr with rfl|rfl|rfl|⟨a,⟨x,hax⟩,heq⟩|rfl|rfl|rfl|rfl|rfl|rfl|rfl|
        rfl|rfl|rfl|rfl|rfl|rfl|rfl|rfl|rfl|rfl|⟨a,⟨x,hax⟩,rfl⟩|rfl|rfl <;>
        first
        | exact key_u0 o fp u
        | exact key_u1 o fp u
        | exact key_u2 o fp u
        | exact key_u3 o fp u
        | exact key_u4 o fp u
        | exact key_u5 o fp u
        | exact key_u6 o fp u
        | exact key_u7 o fp u
        | exact key_u8 o fp u
        | exact key_u9 o fp u
        | exact key_u10 o fp u
        | exact key_u11 o fp u
        | exact key_u12 o fp u
        | exact key_u13 o fp u
        | exact key_u14 o fp u
        | exact key_u15 o fp u
        | exact key_u16 o fp u
        | exact key_u17 o fp u
        | exact key_u18 o fp u
        | exact key_u19 o fp u
        | exact key_mem_infoPlist o fp u
        | exact key_mem_assets o fp u
        | exact heq ▸ key_mem_srcRef o fp u hax
        | exact key_mem_srcRef o fp u hax
    · simp [objectsList, fileRefsList, buildFilesList, mainGroupChildren,
        buildPhaseIds, List.flatMap_map, hent, hB] at hr
      rcases hr with rfl|rfl|rfl|⟨a,⟨x,hax⟩,heq⟩|rfl|rfl|rfl|rfl|rfl|rfl|rfl|
        rfl|rfl|rfl|rfl|rfl|rfl|rfl|rfl|rfl|rfl|rfl|⟨a,⟨x,hax⟩,rfl⟩|rfl|rfl <;>
        first
        | exact key_u0 o fp u
        | exact key_u1 o fp u
        | exact key_u2 o fp u
        | exact key_u3 o fp u
        | exact key_u4 o fp u
        | exact key_u5 o fp u
        | exact key_u6 o fp u
        | exact key_u7 o fp u
        | exact key_u8 o fp u
        | exact key_u9 o fp u
        | exact key_u10 o fp u
        | exact key_u11 o fp u
        | exact key_u12 o fp u
        | exact key_u13 o fp u
        | exact key_u14 o fp u
        | exact key_u15 o fp u
        | exact key_u16 o fp u
        | exact key_u17 o fp u
        | exact key_u18 o fp u
        | exact key_u19 o fp u
        | exact key_mem_infoPlist o fp u
        | exact key_mem_assets o fp u
        | exact key_mem_embedPhase o fp u hB
        | exact key_mem_embedBuild o fp u hB
        | exact heq ▸ key_mem_srcRef o fp u hax
        | exact key_mem_srcRef o fp u hax
    · simp [objectsList, fileRefsList, buildFilesList, mainGroupChildren,
        buildPhaseIds, List.flatMap_map, hent, hB] at hr
      rcases hr with rfl|rfl|rfl|⟨a,⟨x,hax⟩,heq⟩|rfl|rfl|rfl|rfl|rfl|rfl|rfl|
        rfl|rfl|rfl|rfl|rfl|rfl|rfl|rfl|rfl|rfl|rfl|⟨a,⟨x,hax⟩,rfl⟩|rfl|rfl <;>
        first
        | exact key_u0 o fp u
        | exact key_u1 o fp u
        | exact key_u2 o fp u
        | exact key_u3 o fp u
        | exact key_u4 o fp u
        | exact key_u5 o fp u
        | exact key_u6 o fp u
        | exact key_u7 o fp u
        | exact key_u8 o fp u
        | exact key_u9 o fp u
        | exact key_u10 o fp u
        | exact key_u11 o fp u
        | exact key_u12 o fp u
        | exact key_u13 o fp u
        | exact key_u14 o fp u
        | exact key_u15 o fp u
        | exact key_u16 o fp u
        | exact key_u17 o fp u
        | exact key_u18 o fp u
        | exact key_u19 o fp u
        | exact key_mem_infoPlist o fp u
        | exact key_mem_assets o fp u
        | exact key_mem_ent o fp u (by simp [hent])
        | exact heq ▸ key_mem_srcRef o fp u hax
        | exact key_mem_srcRef o fp u hax
    · simp [objectsList, fileRefsList, buildFilesList, mainGroupChildren,
        buildPhaseIds, List.flatMap_map, hent, hB] at hr
      rcases hr with rfl|rfl|rfl|⟨a,⟨x,hax⟩,heq⟩|rfl|rfl|rfl|rfl|rfl|rfl|rfl|
        rfl|rfl|rfl|rfl|rfl|rfl|rfl|rfl|rfl|rfl|rfl|rfl|⟨a,⟨x,hax⟩,rfl⟩|rfl|rfl <;>
        first
        | exact key_u0 o fp u
        | exact key_u1 o fp u
        | exact key_u2 o fp u
        | exact key_u3 o fp u
        | exact key_u4 o fp u
        | exact key_u5 o fp u
        | exact key_u6 o fp u
        | exact key_u7 o fp u
        | exact key_u8 o fp u
        | exact key_u9 o fp u
        | exact key_u10 o fp u
        | exact key_u11 o fp u
        | exact key_u12 o fp u
        | exact key_u13 o fp u
        | exact key_u14 o fp u
        | exact key_u15 o fp u
        | exact key_u16 o fp u
        | exact key_u17 o fp u
        | exact key_u18 o fp u
        | exact key_u19 o fp u
        | exact key_mem_infoPlist o fp u
        | exact key_mem_assets o fp u
        | exact key_mem_ent o fp u (by simp [hent])
        | exact key_mem_embedPhase o fp u hB
        | exact key_mem_embedBuild o fp u hB
        | exact heq ▸ key_mem_srcRef o fp u hax
        | exact key_mem_srcRef o fp u hax

/-! ### `createMinimalProject` (`src/utils/xcodeProject.ts` lines 95–351)

The second generator the integrity claim quantifies over: the minimal
macOS project built by `generateXcodeProject` of
`src/utils/xcodeProject.ts` before the enhance pass.  Allocation order
(lines 121–134): 0 rootObject, 1 mainGroup, 2 productsGroup, 3 target,
4 targetConfigList, 5 projectConfigList, 6 debugConfig, 7 releaseConfig,
8 projectDebugConfig, 9 projectReleaseConfig, 10 sourcesPhase,
11 frameworksPhase, 12 resourcesPhase, 13 productRef; then per source
file a fileRef/buildFile pair (lines 143–144), then infoPlistRef
(line 159) and infoPlistBuildFile (line 167). -/

namespace UtilsXcodeProject

/-- The options record `createMinimalProject` receives (lines 95–104);
`obsidianPath` and `appDir` are destructured away unused (lines 105–112). -/
structure MinimalProjectOptions where
  appName : String
  bundleId : String
  executableName : String
  minimumOsVersion : String
  sourceFiles : List String
  infoPlistPath : String
  obsidianPath : Option String := none
  appDir : String

/-- Allocation index of the `i`-th source file's `PBXFileReference`. -/
def mSrcRefIdx (i : Nat) : Nat := 14 + 2 * i

/-- Allocation index of the `i`-th source file's `PBXBuildFile`. -/
def mSrcBuildIdx (i : Nat) : Nat := 14 + 2 * i + 1

/-- Allocation index of `infoPlistRefUUID` (line 159). -/
def mInfoPlistIdx (mo : MinimalProjectOptions) : Nat :=
  14 + 2 * mo.sourceFiles.length

/-- Allocation index of `infoPlistBuildFileUUID` (line 167). -/
def mInfoPlistBuildIdx (mo : MinimalProjectOptions) : Nat :=
  mInfoPlistIdx mo + 1

/-- lines 145–150 (note the fixed `sourcecode.cpp.cpp` file type). -/
def mSrcFileRefNode (f : String) : PObj :=
  [("isa", .s "PBXFileReference"),
   ("lastKnownFileType", .s "sourcecode.cpp.cpp"),
   ("path", .s f),
   ("sourceTree", .s "<group>")]

/-- lines 160–165. -/
def mInfoPlistRefNode (mo : MinimalProjectOptions) : PObj :=
  [("isa", .s "PBXFileReference"),
   ("lastKnownFileType", .s "text.plist.xml"),
   ("path", .s mo.infoPlistPath),
   ("sourceTree", .s "<group>")]

/-- lines 174–180. -/
def mProductRefNode (mo : MinimalProjectOptions) : PObj :=
  [("isa", .s "PBXFileReference"),
   ("explicitFileType", .s "wrapper.application"),
   ("includeInIndex", .n 0),
   ("path", .s (mo.executableName ++ ".app")),
   ("sourceTree", .s "BUILT_PRODUCTS_DIR")]

/-- The target-level build settings, one identical literal in
`debugConfig` (lines 186–195) and `releaseConfig` (lines 201–210). -/
def mTargetConfigSettings (mo : MinimalProjectOptions) : PObj :=
  [("CLANG_CXX_LANGUAGE_STANDARD", .s "c++20"),
   ("MACOSX_DEPLOYMENT_TARGET", .s mo.minimumOsVersion),
   ("PRODUCT_BUNDLE_IDENTIFIER", .s mo.bundleId),
   ("PRODUCT_NAME", .s mo.executableName),
   ("INFOPLIST_FILE", .s mo.infoPlistPath),
   ("SDKROOT", .s "macosx"),
   ("CODE_SIGN_STYLE", .s "Automatic"),
   ("DEVELOPMENT_TEAM", .s "")]

/-- lines 183–196. -/
def mDebugConfigNode (mo : MinimalProjectOptions) : PObj :=
  [("isa", .s "XCBuildConfiguration"), ("name", .s "Debug"),
   ("buildSettings", .obj (mTargetConfigSettings mo))]

/-- lines 198–211. -/
def mReleaseConfigNode (mo : MinimalProjectOptions) : PObj :=
  [("isa", .s "XCBuildConfiguration"), ("name", .s "Release"),
   ("buildSettings", .obj (mTargetConfigSettings mo))]

/-- The project-level build settings, one identical literal in
`projectDebugConfig` (lines 216–220) and `projectReleaseConfig`
(lines 226–230). -/
def mProjectConfigSettings (mo : MinimalProjectOptions) : PObj :=
  [("CLANG_CXX_LANGUAGE_STANDARD", .s "c++20"),
   ("MACOSX_DEPLOYMENT_TARGET", .s mo.minimumOsVersion),
   ("SDKROOT", .s "macosx")]

/-- lines 213–221. -/
def mProjectDebugConfigNode (mo : MinimalProjectOptions) : PObj :=
  [("isa", .s "XCBuildConfiguration"), ("name", .s "Debug"),
   ("buildSettings", .obj (mProjectConfigSettings mo))]

/-- lines 223–231. -/
def mProjectReleaseConfigNode (mo : MinimalProjectOptions) : PObj :=
  [("isa", .s "XCBuildConfiguration"), ("name", .s "Release"),
   ("buildSettings", .obj (mProjectConfigSettings mo))]

/-- `sourceBuildFileUUIDs` (line 155). -/
def mSourceBuildFileUUIDs (mo : MinimalProjectOptions) (u : Nat → String) :
    List String :=
  mo.sourceFiles.enum.map fun p => u (mSrcBuildIdx p.1)

/-- The `fileRefs` dictionary in insertion order (lines 145, 160, 174). -/
def mFileRefsList (mo : MinimalProjectOptions) (u : Nat → String) :
    List (String × PObj) :=
  (mo.sourceFiles.enum.map fun p => (u (mSrcRefIdx p.1), mSrcFileRefNode p.2)) ++
  [(u (mInfoPlistIdx mo), mInfoPlistRefNode mo),
   (u 13, mProductRefNode mo)]

/-- The `buildFiles` dictionary in insertion order (lines 151, 167);
both node shapes coincide with `ProjectXcode.srcBuildFileNode`. -/
def mBuildFilesList (mo : MinimalProjectOptions) (u : Nat → String) :
    List (String × PObj) :=
  (mo.sourceFiles.enum.map fun p =>
    (u (mSrcBuildIdx p.1), ProjectXcode.srcBuildFileNode (u (mSrcRefIdx p.1)))) ++
  [(u (mInfoPlistBuildIdx mo),
    ProjectXcode.srcBuildFileNode (u (mInfoPlistIdx mo)))]

/-- lines 271–281. -/
def mNativeTargetNode (mo : MinimalProjectOptions) (u : Nat → String) : PObj :=
  [("isa", .s "PBXNativeTarget"),
   ("buildConfigurationList", .s (u 4)),
   ("buildPhases", .arr [.s (u 10), .s (u 11), .s (u 12)]),
   ("buildRules", .arr []),
   ("dependencies", .arr []),
   ("name", .s mo.appName),
   ("productName", .s mo.executableName),
   ("productReference", .s (u 13)),
   ("productType", .s "com.apple.product-type.application")]

/-- lines 284–291: `children` is
`Object.keys(fileRefs).filter(uuid => uuid !== productRefUUID)` followed
by the Products group. -/
def mMainGroupNode (mo : MinimalProjectOptions) (u : Nat → String) : PObj :=
  [("isa", .s "PBXGroup"),
   ("children", .arr
     ((((mFileRefsList mo u).map Prod.fst).filter (fun k => k ≠ u 13) ++
       [u 2]).map .s)),
   ("sourceTree", .s "<group>")]

/-- lines 294–299. -/
def mProductsGroupNode (u : Nat → String) : PObj :=
  [("isa", .s "PBXGroup"),
   ("children", .arr [.s (u 13)]),
   ("name", .s "Products"),
   ("sourceTree", .s "<group>")]

/-- lines 302–323. -/
def mRootProjectNode (u : Nat → String) : PObj :=
  [("isa", .s "PBXProject"),
   ("attributes", .obj
     [("LastSwiftUpdateCheck", .s "2600"),
      ("LastUpgradeCheck", .s "2600"),
      ("TargetAttributes", .obj
        [(u 3, .obj [("CreatedOnToolsVersion", .s "26.0")])])]),
   ("buildConfigurationList", .s (u 5)),
   ("compatibilityVersion", .s "Xcode 26.0"),
   ("developmentRegion", .s "en"),
   ("hasScannedForEncodings", .n 0),
   ("knownRegions", .arr [.s "en", .s "Base"]),
   ("mainGroup", .s (u 1)),
   ("productRefGroup", .s (u 2)),
   ("projectDirPath", .s ""),
   ("projectRoot", .s ""),
   ("targets", .arr [.s (u 3)])]

/-- The `objects` table in the source's assembly order (lines 326–342):
the thirteen named nodes, then `...fileRefs`, then `...buildFiles`.
The configuration-list and phase node shapes coincide with
`ProjectXcode`'s builders and are reused. -/
def mObjectsList (mo : MinimalProjectOptions) (u : Nat → String) :
    List (String × PObj) :=
  [(u 0, mRootProjectNode u),
   (u 1, mMainGroupNode mo u),
   (u 2, mProductsGroupNode u),
   (u 3, mNativeTargetNode mo u),
   (u 4, ProjectXcode.configListNode [u 6, u 7]),
   (u 5, ProjectXcode.configListNode [u 8, u 9]),
   (u 10, ProjectXcode.sourcesPhaseNode (mSourceBuildFileUUIDs mo u)),
   (u 11, ProjectXcode.frameworksPhaseNode []),
   (u 12, ProjectXcode.resourcesPhaseNode []),
   (u 6, mDebugConfigNode mo),
   (u 7, mReleaseConfigNode mo),
   (u 8, mProjectDebugConfigNode mo),
   (u 9, mProjectReleaseConfigNode mo)] ++
  mFileRefsList mo u ++
  mBuildFilesList mo u

/-- `createMinimalProject` (lines 95–351), over the `Math.random()`
stream `g`: the returned structure of lines 344–350.  The function is
total — it has no failure path. -/
def createMinimalProject (mo : MinimalProjectOptions) (g : Nat → Nat) :
    ProjectDoc :=
  { archiveVersion := 1
    classes := []
    objectVersion := 56
    objects := mObjectsList mo (UtilsXcodeProject.generateUUID g)
    rootObject := UtilsXcodeProject.generateUUID g 0 }

end UtilsXcodeProject

section MinimalRefTargets

open UtilsXcodeProject

variable (mo : MinimalProjectOptions) (u : Nat → String)

@[simp]
theorem refTargets_mRootProjectNode :
    refTargets (mRootProjectNode u) = [u 3] ++ [u 1] ++ [u 2] := by
  simp [refTargets, mRootProjectNode, lookupKey]

@[simp]
theorem refTargets_mMainGroupNode :
    refTargets (mMainGroupNode mo u) =
      ((mFileRefsList mo u).map Prod.fst).filter (fun k => k ≠ u 13) ++ [u 2] := by
  simp [refTargets, mMainGroupNode, lookupKey]

@[simp]
theorem refTargets_mProductsGroupNode :
    refTargets (mProductsGroupNode u) = [u 13] := by
  simp [refTargets, mProductsGroupNode, lookupKey]

@[simp]
theorem refTargets_mNativeTargetNode :
    refTargets (mNativeTargetNode mo u) = [u 4] ++ [u 10, u 11, u 12] ++ [u 13] := by
  simp [refTargets, mNativeTargetNode, lookupKey]

@[simp]
theorem refTargets_mDebugConfigNode :
    refTargets (mDebugConfigNode mo) = [] := by
  simp [refTargets, mDebugConfigNode, lookupKey]

@[simp]
theorem refTargets_mReleaseConfigNode :
    refTargets (mReleaseConfigNode mo) = [] := by
  simp [refTargets, mReleaseConfigNode, lookupKey]

@[simp]
theorem refTargets_mProjectDebugConfigNode :
    refTargets (mProjectDebugConfigNode mo) = [] := by
  simp [refTargets, mProjectDebugConfigNode, lookupKey]

@[simp]
theorem refTargets_mProjectReleaseConfigNode :
    refTargets (mProjectReleaseConfigNode mo) = [] := by
  simp [refTargets, mProjectReleaseConfigNode, lookupKey]

@[simp]
theorem refTargets_mSrcFileRefNode (f : String) :
    refTargets (mSrcFileRefNode f) = [] := by
  simp [refTargets, mSrcFileRefNode, lookupKey]

@[simp]
theorem refTargets_mInfoPlistRefNode :
    refTargets (mInfoPlistRefNode mo) = [] := by
  simp [refTargets, mInfoPlistRefNode, lookupKey]

@[simp]
theorem refTargets_mProductRefNode :
    refTargets (mProductRefNode mo) = [] := by
  simp [refTargets, mProductRefNode, lookupKey]

end MinimalRefTargets

section MinimalKeyMembership

open UtilsXcodeProject

variable (mo : MinimalProjectOptions) (u : Nat → String)

/-- The keys of the minimal project's objects table. -/
def mObjKeys : List String := (mObjectsList mo u).map Prod.fst

theorem mkey_mem_head :
    ∀ i ∈ [0, 1, 2, 3, 4, 5, 10, 11, 12, 6, 7, 8, 9], u i ∈ mObjKeys mo u := by
  intro i hi
  fin_cases hi <;> simp [mObjKeys, mObjectsList]

theorem mkey_mem_fileRefs_sub {r : String}
    (hr : r ∈ (mFileRefsList mo u).map Prod.fst) : r ∈ mObjKeys mo u := by
  simp only [mObjKeys, mObjectsList, List.map_append, List.mem_append]
  tauto

theorem mkey_mem_srcRef {p : Nat × String} (hp : p ∈ mo.sourceFiles.enum) :
    u (mSrcRefIdx p.1) ∈ mObjKeys mo u := by
  refine mkey_mem_fileRefs_sub mo u ?_
  have hx : u (mSrcRefIdx p.1) ∈
      List.map (Prod.fst ∘ fun q => (u (mSrcRefIdx q.1), mSrcFileRefNode q.2))
        mo.sourceFiles.enum := List.mem_map.mpr ⟨p, hp, rfl⟩
  simp only [mFileRefsList, List.map_append, List.mem_append, List.map_cons,
    List.mem_cons, List.map_map]
  tauto

theorem mkey_mem_infoPlist : u (mInfoPlistIdx mo) ∈ mObjKeys mo u :=
  mkey_mem_fileRefs_sub mo u (by simp [mFileRefsList])

theorem mkey_mem_product : u 13 ∈ mObjKeys mo u :=
  mkey_mem_fileRefs_sub mo u (by simp [mFileRefsList])

end MinimalKeyMembership

/-- Every node of the minimal project's `fileRefs` dictionary is a
plain file reference: it contributes no reference targets. -/
theorem refTargets_mFileRefsList_nil (mo : UtilsXcodeProject.MinimalProjectOptions)
    (u : Nat → String) :
    ∀ p ∈ UtilsXcodeProject.mFileRefsList mo u, refTargets p.2 = [] := by
  intro p hp
  simp only [UtilsXcodeProject.mFileRefsList, List.mem_append, List.mem_cons,
    List.mem_map, List.not_mem_nil, or_false] at hp
  rcases hp with ⟨q, hq, rfl⟩ | rfl | rfl <;> simp

/-- Core of C2 for `createMinimalProject`, over an arbitrary identifier
source `u`: every reference-field identifier of the minimal document is
a key of its objects table. -/
theorem c2m_core (mo : UtilsXcodeProject.MinimalProjectOptions)
    (u : Nat → String) :
    ∀ r ∈ docRefTargets
        (ProjectDoc.mk 1 [] 56 (UtilsXcodeProject.mObjectsList mo u) (u 0)),
      r ∈ mObjKeys mo u := by
  intro r hr
  simp only [docRefTargets, List.mem_cons] at hr
  rcases hr with rfl | hr
  · exact mkey_mem_head mo u 0 (by simp)
  · simp [UtilsXcodeProject.mObjectsList, UtilsXcodeProject.mBuildFilesList,
      List.flatMap_map] at hr
    rcases hr with rfl|rfl|rfl|⟨⟨x, hx⟩, hne⟩|rfl|rfl|rfl|rfl|rfl|rfl|rfl|rfl|
      rfl|rfl|rfl|⟨a, b, hab, hrb⟩|⟨a,⟨x2,hax⟩,rfl⟩|rfl <;>
      first
      | exact mkey_mem_head mo u _ (by decide)
      | exact mkey_mem_product mo u
      | exact mkey_mem_infoPlist mo u
      | exact mkey_mem_fileRefs_sub mo u (List.mem_map.mpr ⟨(r, x), hx, rfl⟩)
      | exact absurd ((refTargets_mFileRefsList_nil mo u (a, b) hab) ▸ hrb)
          (List.not_mem_nil r)
      | exact mkey_mem_srcRef mo u hax

/-- C2: for every generated project graph — the framework-based
generator of `src/project/xcode.ts` and the minimal project built by
`createMinimalProject` of `src/utils/xcodeProject.ts` alike — every
identifier stored in the reference fields named by the claim (a
BuildFile's `fileRef`, a Target's
`buildConfigurationList`/`buildPhases`/`productReference`, a Group's
`children`, a ConfigurationList's `buildConfigurations`, the Project's
`targets`/`mainGroup`/`productRefGroup`, and the document's
`rootObject`) is a key of that document's objects table, under the
claim's hypothesis that the allocated identifiers (the tables' keys)
are pairwise distinct.  (The proofs do not even need that hypothesis:
every reference is one of the allocated identifiers, each of which is
a key of its table.) -/
theorem c2_referential_integrity (o : XcodeProjectOptions) (g : Nat → Nat)
    (fp : String) (mo : UtilsXcodeProject.MinimalProjectOptions)
    (g₂ : Nat → Nat) (hfp : o.frameworkPath = some fp)
    (_hdist : (objKeys o fp (generateUUID g)).Nodup)
    (_hdist₂ : ((UtilsXcodeProject.createMinimalProject mo g₂).objects.map
      Prod.fst).Nodup) :
    (∃ doc, generateXcodeProject o g = .ok doc ∧
      ∀ r ∈ docRefTargets doc, r ∈ doc.objects.map Prod.fst) ∧
    (∀ r ∈ docRefTargets (UtilsXcodeProject.createMinimalProject mo g₂),
      r ∈ (UtilsXcodeProject.createMinimalProject mo g₂).objects.map
        Prod.fst) := by
  constructor
  · refine ⟨ProjectDoc.mk 1 [] 56 (objectsList o fp (generateUUID g))
      (generateUUID g 0), ?_, ?_⟩
    · unfold generateXcodeProject generateXcodeProjectRun generateXcodeProjectFrom
      rw [hfp]
    · exact c2_core o fp (generateUUID g)
  · exact c2m_core mo (UtilsXcodeProject.generateUUID g₂)

/-- A concrete options record for `createMinimalProject`. -/
def sampleMinimalOptions : UtilsXcodeProject.MinimalProjectOptions :=
  { appName := "App"
    bundleId := "com.example.app"
    executableName := "App"
    minimumOsVersion := "26.0"
    sourceFiles := ["main.cpp"]
    infoPlistPath := "Info.plist"
    obsidianPath := none
    appDir := "/w/app" }

/-- Witness for C2: both generators at concrete options records and a
stream with pairwise-distinct identifiers. -/
theorem c2_referential_integrity_witness :
    (∃ doc, generateXcodeProject sampleOptions distinctStream = .ok doc ∧
      ∀ r ∈ docRefTargets doc, r ∈ doc.objects.map Prod.fst) ∧
    (∀ r ∈ docRefTargets
        (UtilsXcodeProject.createMinimalProject sampleMinimalOptions
          distinctStream),
      r ∈ (UtilsXcodeProject.createMinimalProject sampleMinimalOptions
          distinctStream).objects.map Prod.fst) :=
  c2_referential_integrity sampleOptions distinctStream
    "/w/app/Obsydian.xcframework" sampleMinimalOptions distinctStream
    rfl (by decide) (by decide)

/-! ## C4 — the embed phase exists exactly on iOS, after Frameworks -/

/-- Does `pid` resolve to a copy-files (artifact-embedding) phase? -/
def isCopyFilesPhase (objs : List (String × PObj)) (pid : String) : Bool :=
  match lookupObj objs pid with
  | some node =>
    match lookupKey node "isa" with
    | some (.s s) => s = "PBXCopyFilesBuildPhase"
    | _ => false
  | none => false

/-- Does `pid` resolve to the Frameworks (link) phase? -/
def isFrameworksPhase (objs : List (String × PObj)) (pid : String) : Bool :=
  match lookupObj objs pid with
  | some node =>
    match lookupKey node "isa" with
    | some (.s s) => s = "PBXFrameworksBuildPhase"
    | _ => false
  | none => false

/-- The `buildPhases` identifier list of the target node `tid`. -/
def targetPhaseIds (objs : List (String × PObj)) (tid : String) : List String :=
  match lookupObj objs tid with
  | some node =>
    match lookupKey node "buildPhases" with
    | some (.arr vs) => strsOf vs
    | _ => []
  | none => []

section C4Core

variable (o : XcodeProjectOptions) (fp : String) (u : Nat → String)

theorem targetPhaseIds_eq (hdist : (objKeys o fp u).Nodup) :
    targetPhaseIds (objectsList o fp u) (u 4) = buildPhaseIds o u := by
  have h4 : lookupObj (objectsList o fp u) (u 4) = some (nativeTargetNode o u) :=
    lookupObj_eq_of_nodup hdist (by simp [objectsList])
  unfold targetPhaseIds
  rw [h4]
  simp [nativeTargetNode, lookupKey]

theorem isCopyFilesPhase_sources (hdist : (objKeys o fp u).Nodup) :
    isCopyFilesPhase (objectsList o fp u) (u 11) = false := by
  have h := lookupObj_eq_of_nodup hdist
    (show (u 11, sourcesPhaseNode (sourceBuildFileUUIDs o u)) ∈
      objectsList o fp u by simp [objectsList])
  unfold isCopyFilesPhase
  rw [h]
  simp [sourcesPhaseNode, lookupKey]

theorem isCopyFilesPhase_frameworks (hdist : (objKeys o fp u).Nodup) :
    isCopyFilesPhase (objectsList o fp u) (u 12) = false := by
  have h := lookupObj_eq_of_nodup hdist
    (show (u 12, frameworksPhaseNode [u 17, u 19]) ∈
      objectsList o fp u by simp [objectsList])
  unfold isCopyFilesPhase
  rw [h]
  simp [frameworksPhaseNode, lookupKey]

theorem isCopyFilesPhase_resources (hdist : (objKeys o fp u).Nodup) :
    isCopyFilesPhase (objectsList o fp u) (u 13) = false := by
  have h := lookupObj_eq_of_nodup hdist
    (show (u 13, resourcesPhaseNode [u 15]) ∈
      objectsList o fp u by simp [objectsList])
  unfold isCopyFilesPhase
  rw [h]
  simp [resourcesPhaseNode, lookupKey]

theorem isCopyFilesPhase_embed (hdist : (objKeys o fp u).Nodup)
    (hios : o.isIOS = true) :
    isCopyFilesPhase (objectsList o fp u) (u 20) = true := by
  have h := lookupObj_eq_of_nodup hdist
    (show (u 20, embedFrameworksPhaseNode (u 21)) ∈
      objectsList o fp u by simp [objectsList, hios])
  unfold isCopyFilesPhase
  rw [h]
  simp [embedFrameworksPhaseNode, lookupKey]

theorem isFrameworksPhase_sources (hdist : (objKeys o fp u).Nodup) :
    isFrameworksPhase (objectsList o fp u) (u 11) = false := by
  have h := lookupObj_eq_of_nodup hdist
    (show (u 11, sourcesPhaseNode (sourceBuildFileUUIDs o u)) ∈
      objectsList o fp u by simp [objectsList])
  unfold isFrameworksPhase
  rw [h]
  simp [sourcesPhaseNode, lookupKey]

theorem isFrameworksPhase_frameworks (hdist : (objKeys o fp u).Nodup) :
    isFrameworksPhase (objectsList o fp u) (u 12) = true := by
  have h := lookupObj_eq_of_nodup hdist
    (show (u 12, frameworksPhaseNode [u 17, u 19]) ∈
      objectsList o fp u by simp [objectsList])
  unfold isFrameworksPhase
  rw [h]
  simp [frameworksPhaseNode, lookupKey]

theorem c4_core_ios (hdist : (objKeys o fp u).Nodup) (hios : o.isIOS = true) :
    (targetPhaseIds (objectsList o fp u) (u 4)).countP
        (isCopyFilesPhase (objectsList o fp u)) = 1 ∧
    (targetPhaseIds (objectsList o fp u) (u 4)).findIdx
        (isFrameworksPhase (objectsList o fp u)) <
      (targetPhaseIds (objectsList o fp u) (u 4)).findIdx
        (isCopyFilesPhase (objectsList o fp u)) := by
  rw [targetPhaseIds_eq o fp u hdist]
  unfold buildPhaseIds
  rw [hios]
  simp [List.countP_cons, List.findIdx_cons,
    isCopyFilesPhase_sources o fp u hdist, isCopyFilesPhase_frameworks o fp u hdist,
    isCopyFilesPhase_resources o fp u hdist, isCopyFilesPhase_embed o fp u hdist hios,
    isFrameworksPhase_sources o fp u hdist, isFrameworksPhase_frameworks o fp u hdist]

theorem c4_core_macos (hdist : (objKeys o fp u).Nodup) (hios : o.isIOS = false) :
    (targetPhaseIds (objectsList o fp u) (u 4)).countP
        (isCopyFilesPhase (objectsList o fp u)) = 0 := by
  rw [targetPhaseIds_eq o fp u hdist]
  unfold buildPhaseIds
  rw [hios]
  simp [List.countP_cons,
    isCopyFilesPhase_sources o fp u hdist, isCopyFilesPhase_frameworks o fp u hdist,
    isCopyFilesPhase_resources o fp u hdist]

end C4Core

/-- C4: in the generated document (identifiers assumed pairwise
distinct, as in C2), when the platform set selects iOS the target's
phase list contains exactly one artifact-embedding (copy-files) phase
and it sits at a strictly larger index than the Frameworks phase; when
the platform set does not include iOS (desktop only) the phase list
contains no artifact-embedding phase at all. -/
theorem c4_embed_phase (o : XcodeProjectOptions) (g : Nat → Nat)
    (fp : String) (hfp : o.frameworkPath = some fp)
    (hdist : (objKeys o fp (generateUUID g)).Nodup) :
    ∃ doc, generateXcodeProject o g = .ok doc ∧
      (Platform.ios ∈ o.platforms →
        (targetPhaseIds doc.objects (generateUUID g 4)).countP
            (isCopyFilesPhase doc.objects) = 1 ∧
        (targetPhaseIds doc.objects (generateUUID g 4)).findIdx
            (isFrameworksPhase doc.objects) <
          (targetPhaseIds doc.objects (generateUUID g 4)).findIdx
            (isCopyFilesPhase doc.objects)) ∧
      (Platform.ios ∉ o.platforms →
        (targetPhaseIds doc.objects (generateUUID g 4)).countP
            (isCopyFilesPhase doc.objects) = 0) := by
  refine ⟨ProjectDoc.mk 1 [] 56 (objectsList o fp (generateUUID g))
    (generateUUID g 0), ?_, ?_, ?_⟩
  · unfold generateXcodeProject generateXcodeProjectRun generateXcodeProjectFrom
    rw [hfp]
  · intro hmem
    exact c4_core_ios o fp (generateUUID g) hdist
      (by simp [XcodeProjectOptions.isIOS]; exact hmem)
  · intro hmem
    exact c4_core_macos o fp (generateUUID g) hdist
      (by simp [XcodeProjectOptions.isIOS]; exact hmem)

/-- Witness for C4 at a concrete iOS options record (and implicitly the
desktop half is exercised by the same theorem at `sampleOptions`). -/
theorem c4_embed_phase_witness :
    ∃ doc, generateXcodeProject sampleOptionsIOS distinctStream = .ok doc ∧
      (Platform.ios ∈ sampleOptionsIOS.platforms →
        (targetPhaseIds doc.objects (generateUUID distinctStream 4)).countP
            (isCopyFilesPhase doc.objects) = 1 ∧
        (targetPhaseIds doc.objects (generateUUID distinctStream 4)).findIdx
            (isFrameworksPhase doc.objects) <
          (targetPhaseIds doc.objects (generateUUID distinctStream 4)).findIdx
            (isCopyFilesPhase doc.objects)) ∧
      (Platform.ios ∉ sampleOptionsIOS.platforms →
        (targetPhaseIds doc.objects (generateUUID distinctStream 4)).countP
            (isCopyFilesPhase doc.objects) = 0) :=
  c4_embed_phase sampleOptionsIOS distinctStream "/w/app/Obsydian.xcframework"
    rfl (by decide)

/-! ## C6 — the Sources phase mirrors the input source list -/

/-- The `files` identifier list of the phase node `pid`. -/
def phaseFiles (objs : List (String × PObj)) (pid : String) : List String :=
  match lookupObj objs pid with
  | some node =>
    match lookupKey node "files" with
    | some (.arr vs) => strsOf vs
    | _ => []
  | none => []

section C6Core

variable (o : XcodeProjectOptions) (fp : String) (u : Nat → String)

theorem phaseFiles_sources (hdist : (objKeys o fp u).Nodup) :
    phaseFiles (objectsList o fp u) (u 11) = sourceBuildFileUUIDs o u := by
  have h := lookupObj_eq_of_nodup hdist
    (show (u 11, sourcesPhaseNode (sourceBuildFileUUIDs o u)) ∈
      objectsList o fp u by simp [objectsList])
  unfold phaseFiles
  rw [h]
  simp [sourcesPhaseNode, lookupKey]

theorem mem_enum_of_lt {α : Type} {l : List α} {i : Nat} (hi : i < l.length) :
    (i, l.get ⟨i, hi⟩) ∈ l.enum := by
  rw [List.mem_enum_iff_getElem?]
  simp [List.getElem?_eq_getElem hi]

theorem c6_core (hdist : (objKeys o fp u).Nodup) :
    (phaseFiles (objectsList o fp u) (u 11)).length = o.sourceFiles.length ∧
    ∀ i, (hi : i < o.sourceFiles.length) →
      ∃ bfId bf refId fr,
        (phaseFiles (objectsList o fp u) (u 11)).get? i = some bfId ∧
        lookupObj (objectsList o fp u) bfId = some bf ∧
        lookupKey bf "isa" = some (.s "PBXBuildFile") ∧
        lookupKey bf "fileRef" = some (.s refId) ∧
        lookupObj (objectsList o fp u) refId = some fr ∧
        lookupKey fr "isa" = some (.s "PBXFileReference") ∧
        lookupKey fr "path" = some (.s (o.sourceFiles.get ⟨i, hi⟩)) := by
  rw [phaseFiles_sources o fp u hdist]
  constructor
  · simp [sourceBuildFileUUIDs]
  · intro i hi
    have henum : (i, o.sourceFiles.get ⟨i, hi⟩) ∈ o.sourceFiles.enum :=
      mem_enum_of_lt hi
    refine ⟨u (srcBuildIdx o i), srcBuildFileNode (u (srcRefIdx o i)),
      u (srcRefIdx o i), srcFileRefNode (o.sourceFiles.get ⟨i, hi⟩),
      ?_, ?_, ?_, ?_, ?_, ?_, ?_⟩
    · unfold sourceBuildFileUUIDs
      rw [List.get?_eq_getElem?, List.getElem?_map, List.getElem?_enum,
        List.getElem?_eq_getElem hi]
      rfl
    · refine lookupObj_eq_of_nodup hdist ?_
      have hx : (u (srcBuildIdx o i), srcBuildFileNode (u (srcRefIdx o i))) ∈
          List.map (fun q =>
            (u (srcBuildIdx o q.1), srcBuildFileNode (u (srcRefIdx o q.1))))
            o.sourceFiles.enum :=
        List.mem_map.mpr ⟨(i, o.sourceFiles.get ⟨i, hi⟩), henum, rfl⟩
      simp only [objectsList, buildFilesList, List.mem_append, List.mem_cons]
      tauto
    · rfl
    · rfl
    · refine lookupObj_eq_of_nodup hdist ?_
      have hx : (u (srcRefIdx o i), srcFileRefNode (o.sourceFiles.get ⟨i, hi⟩)) ∈
          List.map (fun q => (u (srcRefIdx o q.1), srcFileRefNode q.2))
            o.sourceFiles.enum :=
        List.mem_map.mpr ⟨(i, o.sourceFiles.get ⟨i, hi⟩), henum, rfl⟩
      simp only [objectsList, fileRefsList, List.mem_append, List.mem_cons]
      tauto
    · rfl
    · rfl

end C6Core

/-- C6: in the generated document (identifiers assumed pairwise
distinct, as in C2), the Sources phase's `files` field holds exactly
one BuildFile identifier per input source file, in input order, and
the `i`-th entry resolves to a `PBXBuildFile` whose `fileRef` resolves
to a `PBXFileReference` whose `path` is the `i`-th input source file. -/
theorem c6_sources_phase (o : XcodeProjectOptions) (g : Nat → Nat)
    (fp : String) (hfp : o.frameworkPath = some fp)
    (hdist : (objKeys o fp (generateUUID g)).Nodup) :
    ∃ doc, generateXcodeProject o g = .ok doc ∧
      (phaseFiles doc.objects (generateUUID g 11)).length =
        o.sourceFiles.length ∧
      ∀ i, (hi : i < o.sourceFiles.length) →
        ∃ bfId bf refId fr,
          (phaseFiles doc.objects (generateUUID g 11)).get? i = some bfId ∧
          lookupObj doc.objects bfId = some bf ∧
          lookupKey bf "isa" = some (.s "PBXBuildFile") ∧
          lookupKey bf "fileRef" = some (.s refId) ∧
          lookupObj doc.objects refId = some fr ∧
          lookupKey fr "isa" = some (.s "PBXFileReference") ∧
          lookupKey fr "path" = some (.s (o.sourceFiles.get ⟨i, hi⟩)) := by
  refine ⟨ProjectDoc.mk 1 [] 56 (objectsList o fp (generateUUID g))
    (generateUUID g 0), ?_, ?_⟩
  · unfold generateXcodeProject generateXcodeProjectRun generateXcodeProjectFrom
    rw [hfp]
  · exact c6_core o fp (generateUUID g) hdist

/-- Witness for C6 at a concrete options record (one source file,
`main.m`) and a stream with pairwise-distinct identifiers. -/
theorem c6_sources_phase_witness :
    ∃ doc, generateXcodeProject sampleOptions distinctStream = .ok doc ∧
      (phaseFiles doc.objects (generateUUID distinctStream 11)).length =
        sampleOptions.sourceFiles.length ∧
      ∀ i, (hi : i < sampleOptions.sourceFiles.length) →
        ∃ bfId bf refId fr,
          (phaseFiles doc.objects (generateUUID distinctStream 11)).get? i =
            some bfId ∧
          lookupObj doc.objects bfId = some bf ∧
          lookupKey bf "isa" = some (.s "PBXBuildFile") ∧
          lookupKey bf "fileRef" = some (.s refId) ∧
          lookupObj doc.objects refId = some fr ∧
          lookupKey fr "isa" = some (.s "PBXFileReference") ∧
          lookupKey fr "path" = some (.s (sampleOptions.sourceFiles.get ⟨i, hi⟩)) :=
  c6_sources_phase sampleOptions distinctStream "/w/app/Obsydian.xcframework"
    rfl (by decide)
